import Mathlib

/-!
# Overlay rendering of the tracking examples

A shallow embedding of the overlay code of `example/examples.h`:

* `DrawFilledRect` (lines 12-36), the alpha-blended label background;
* the label-placement clamping that every `DrawData` runs on the bounding
  rectangle of a track before it draws the label (lines 176-197, repeated at 538-559,
  719-740 and 918-939);
* `InitDetector` and `InitTracker` of the six example classes, and `DrawData` of
  the motion example (lines 159-209).

Conventions of the embedding.

* C++ `int` values are `Int`. In the blend every intermediate value is at most
  `255 * 255` (channel values and weights are at most 255). In the clamping a sum
  or difference of coordinates is reduced to the 32 bit range by `wrapInt`: signed
  overflow is undefined in the source, and the compiled code yields the two's
  complement result.
* An 8 bit frame `cv::Mat` is a grid of channel values addressed by row, column
  and channel. `ptr[i]` at column `x` of row `y` is `px y x i`. The grid is
  unbounded, so that a write the source makes outside `rows x cols` is visible
  as a write to a coordinate that is not a pixel of the frame.
* The entries of a `cv::Scalar` are taken to be integer valued, as they are at
  every call site (`cv::Scalar(255, 0, 255)`, `cv::Scalar(200, 200, 200)`); every
  variant of `cvRound` is the identity on such values.
-/

namespace Examples

/-- Integer rectangle `cv::Rect`: top-left corner and size. -/
structure Rect where
  x : Int
  y : Int
  width : Int
  height : Int
deriving DecidableEq

/-- Integer size `cv::Size`. -/
structure Size where
  width : Int
  height : Int
deriving DecidableEq

/-- Colour `cv::Scalar`, four channel values (integer valued, see the header). -/
structure Scalar where
  v0 : Int
  v1 : Int
  v2 : Int
  v3 : Int
deriving DecidableEq

/-- Entry `cl[i]` of a colour. -/
def Scalar.get (cl : Scalar) (i : Nat) : Int :=
  match i with
  | 0 => cl.v0
  | 1 => cl.v1
  | 2 => cl.v2
  | _ => cl.v3

/-- An 8 bit image `cv::Mat`: its size, its number of channels and the channel
values by row, column and channel. -/
structure Mat where
  rows : Int
  cols : Int
  channels : Nat
  px : Int → Int → Nat → Int

/-- The store `ptr[i] = v` at column `x` of row `y`. -/
def Mat.set (m : Mat) (y x : Int) (i : Nat) (v : Int) : Mat :=
  { m with px := fun y1 x1 i1 => if y1 = y ∧ x1 = x ∧ i1 = i then v else m.px y1 x1 i1 }

/-- The conversion `cv::saturate_cast<uchar>(int)`: clamps to `0..255`. -/
def saturate_cast_uchar (v : Int) : Int :=
  if v < 0 then 0 else if v > 255 then 255 else v

/-- The conversion `cv::saturate_cast<int>(double)` on an integer valued entry. -/
def saturate_cast_int (v : Int) : Int := v

/-- The counting loop `for (int k = lo; k < hi; ++k) s = body(k, s)`. -/
def forRange {σ : Type} (lo hi : Int) (body : Int → σ → σ) (s : σ) : σ :=
  (List.range (hi - lo).toNat).foldl (fun acc (k : Nat) => body (lo + (k : Int)) acc) s

/-- The value stored by line 26 for one channel:
`saturate_cast<uchar>((alpha_1 * ptr[i] + alpha * color[i]) / 255)`,
with the truncating division of C++. -/
def blendValue (alpha_1 alpha p c : Int) : Int :=
  saturate_cast_uchar (Int.tdiv (alpha_1 * p + alpha * c) 255)

/-- The innermost loop of `DrawFilledRect` (lines 24-27): every channel of the
pixel at column `x` of row `y`. The array `color` has three entries; a read past
it is outside the array in the source and yields `0` here. -/
def blendPixel (alpha_1 alpha : Int) (color : List Int) (nchans : Nat) (y x : Int)
    (frame : Mat) : Mat :=
  (List.range nchans).foldl
    (fun m (i : Nat) =>
      m.set y x i (blendValue alpha_1 alpha (m.px y x i) (color.getD i 0))) frame

/-- Modelled from the spec: `cv::rectangle(frame, rect, cl, cv::FILLED)`, the OpenCV
drawing routine the `alpha == 0` branch calls; it is not among the sources. It is
the ordinary solid filled rectangle: every pixel of the frame that lies in `r`
gets the colour, each channel converted with `saturate_cast<uchar>`; the drawing
is clipped to the frame. -/
def rectangle (img : Mat) (r : Rect) (color : Scalar) : Mat :=
  { img with px := fun y x i =>
      if 0 ≤ y ∧ y < img.rows ∧ 0 ≤ x ∧ x < img.cols ∧
          r.y ≤ y ∧ y < r.y + r.height ∧ r.x ≤ x ∧ x < r.x + r.width ∧ i < img.channels
      then saturate_cast_uchar (color.get i) else img.px y x i }

/-- The function `DrawFilledRect` (lines 12-36). -/
def DrawFilledRect (frame : Mat) (rect : Rect) (cl : Scalar) (alpha : Int) : Mat :=
  if alpha ≠ 0 then
    let alpha_1 := 255 - alpha
    let nchans := frame.channels
    let color := [saturate_cast_int cl.v0, saturate_cast_int cl.v1, saturate_cast_int cl.v2]
    forRange rect.y (rect.y + rect.height) (fun y m =>
      forRange rect.x (rect.x + rect.width) (fun x m1 =>
        blendPixel alpha_1 alpha color nchans y x m1) m) frame
  else
    rectangle frame rect cl

/-- The least value of a C++ `int`. -/
def INT_MIN : Int := -2147483648

/-- The greatest value of a C++ `int`. -/
def INT_MAX : Int := 2147483647

/-- The value is one a C++ `int` holds. -/
def fitsInt (v : Int) : Prop :=
  INT_MIN ≤ v ∧ v ≤ INT_MAX

instance (v : Int) : Decidable (fitsInt v) := by
  unfold fitsInt
  infer_instance

/-- The four members of the rectangle are values a C++ `int` holds. -/
def Rect.fitsInt (r : Rect) : Prop :=
  Examples.fitsInt r.x ∧ Examples.fitsInt r.y ∧ Examples.fitsInt r.width
    ∧ Examples.fitsInt r.height

instance (r : Rect) : Decidable (r.fitsInt) := by
  unfold Rect.fitsInt
  infer_instance

/-- The `int` an addition or subtraction of two `int` values yields when its exact
result is `v`: `v` itself when it fits, else `v` reduced modulo `2 ^ 32` into the
range of an `int`. -/
def wrapInt (v : Int) : Int :=
  (v + 2147483648) % 4294967296 - 2147483648

/-- Lines 177-186 of `DrawData`: the horizontal part of the clamping of `brect`. -/
def clampHorizontal (brect : Rect) (cols : Int) : Rect :=
  if brect.x < 0 then
    let b1 := { brect with width := min brect.width (wrapInt (cols - 1)) }
    { b1 with x := 0 }
  else if wrapInt (brect.x + brect.width) ≥ cols then
    let b1 := { brect with x := max 0 (wrapInt (wrapInt (cols - brect.width) - 1)) }
    { b1 with width := min b1.width (wrapInt (cols - 1)) }
  else
    brect

/-- Lines 187-196 of `DrawData`: the vertical part of the clamping of `brect`. -/
def clampVertical (brect : Rect) (labelSize : Size) (rows : Int) : Rect :=
  if wrapInt (brect.y - labelSize.height) < 0 then
    let b1 := { brect with height := min brect.height (wrapInt (rows - 1)) }
    { b1 with y := labelSize.height }
  else if wrapInt (brect.y + brect.height) ≥ rows then
    let b1 := { brect with y := max 0 (wrapInt (wrapInt (rows - brect.height) - 1)) }
    { b1 with height := min b1.height (wrapInt (rows - 1)) }
  else
    brect

/-- Lines 176-196 of `DrawData`: the clamping of the bounding rectangle `brect` of
a track in a frame of `cols x rows` pixels, for a label of size `labelSize`. -/
def clampBrect (brect : Rect) (labelSize : Size) (cols rows : Int) : Rect :=
  clampVertical (clampHorizontal brect cols) labelSize rows

/-- The rectangle line 197 of `DrawData` passes to `DrawFilledRect`:
`cv::Rect(cv::Point(brect.x, brect.y - labelSize.height),
cv::Size(labelSize.width, labelSize.height + baseLine))`. -/
def labelRect (brect : Rect) (labelSize : Size) (baseLine : Int) : Rect :=
  { x := brect.x, y := brect.y - labelSize.height,
    width := labelSize.width, height := labelSize.height + baseLine }

/-- Lines 176-197 of `DrawData`: the label background drawn for a track with
bounding rectangle `brect`, in colour `cl` with weight `150`. -/
def drawLabelBackground (frame : Mat) (brect : Rect) (labelSize : Size) (baseLine : Int)
    (cl : Scalar) : Mat :=
  DrawFilledRect frame
    (labelRect (clampBrect brect labelSize frame.cols frame.rows) labelSize baseLine) cl 150

/-- The rectangle `r` lies inside a frame of `cols x rows` pixels. -/
def Rect.insideFrame (r : Rect) (cols rows : Int) : Prop :=
  0 ≤ r.x ∧ r.x + r.width ≤ cols ∧ 0 ≤ r.y ∧ r.y + r.height ≤ rows

instance (r : Rect) (cols rows : Int) : Decidable (r.insideFrame cols rows) := by
  unfold Rect.insideFrame
  infer_instance

/-- The pixel at column `x` of row `y` is one the loops of `DrawFilledRect` visit
for `rect`. -/
def Rect.covers (rect : Rect) (y x : Int) : Prop :=
  rect.y ≤ y ∧ y < rect.y + rect.height ∧ rect.x ≤ x ∧ x < rect.x + rect.width

instance (rect : Rect) (y x : Int) : Decidable (rect.covers y x) := by
  unfold Rect.covers
  infer_instance

/-- The coordinate is a pixel of the frame `m`. -/
def Mat.inFrame (m : Mat) (y x : Int) : Prop :=
  0 ≤ y ∧ y < m.rows ∧ 0 ≤ x ∧ x < m.cols

instance (m : Mat) (y x : Int) : Decidable (m.inFrame y x) := by
  unfold Mat.inFrame
  infer_instance

/-- A frame of `cols x rows` pixels with three channels, every channel value `p`. -/
def constFrame (cols rows p : Int) : Mat :=
  { rows := rows, cols := cols, channels := 3, px := fun _ _ _ => p }

/-- The quotient `n / 255` rounded to the nearest integer, as the specification
words the blend: `round(n / 255)` over the rationals. -/
def roundDiv255 (n : Int) : Int :=
  round ((n : ℚ) / 255)

/-- The quotient `n / 255` rounded down, over the rationals. -/
def floorDiv255 (n : Int) : Int :=
  ⌊(n : ℚ) / 255⌋

/-- Channel `i` of the pixel at column `x` of row `y` is a channel of a pixel of
`frame` that lies inside `rect`; it holds the value `p`, the entry of the fill colour
for it is `c`, and both are channel values `0..255`. -/
def ChannelAt (frame : Mat) (rect : Rect) (cl : Scalar) (y x : Int) (i : Nat)
    (p c : Int) : Prop :=
  frame.inFrame y x ∧ rect.covers y x ∧ i < frame.channels ∧ i < 3 ∧
    frame.px y x i = p ∧ 0 ≤ p ∧ p ≤ 255 ∧ cl.get i = c ∧ 0 ≤ c ∧ c ≤ 255

instance (frame : Mat) (rect : Rect) (cl : Scalar) (y x : Int) (i : Nat) (p c : Int) :
    Decidable (ChannelAt frame rect cl y x i p c) := by
  unfold ChannelAt
  infer_instance

/-! ## Detector and tracker set-up of the examples

The members of the base class `VideoExample` the examples read and write, the types
`TrackerSettings`, `BaseDetector`, `CTrack` and the factory `CreateDetector` are
declared outside `examples.h`. The set-up code is embedded over records that hold
exactly the members it assigns; calls of absent routines are taken as parameters
(`CreateDetector`, `IsRobust`, `cv::getTextSize`) or recorded as they are made
(`SetMinObjectSize`, `DrawTrack`, `cv::putText`). The frame rate `m_fps` and the
`float` literals are rationals. A product or quotient `InitTracker` forms from
`m_fps` and hands to `cvRound` is rounded to the floating-point format of `m_fps`
by `roundToFormat`, as the program rounds it; the format is a parameter, since
`m_fps` is declared outside `examples.h`. -/

/-- Modelled from the spec: `cvRound`, the OpenCV rounding every `InitTracker`
applies to a multiple of the frame rate; it is not among the sources. The
specification words it `round(...)`: the nearest integer. A tie goes to the even
neighbour, as in the default build of OpenCV. -/
def cvRound (x : ℚ) : Int :=
  if x - ⌊x⌋ < 1 / 2 then ⌊x⌋
  else if 1 / 2 < x - ⌊x⌋ then ⌊x⌋ + 1
  else if ⌊x⌋ % 2 = 0 then ⌊x⌋
  else ⌊x⌋ + 1

/-- The two binary floating-point formats of C++: `float` and `double`. -/
inductive FloatFormat where
  | binary32
  | binary64
deriving DecidableEq

/-- The number of fraction bits of a format. -/
def FloatFormat.fractionBits : FloatFormat → Nat
  | .binary32 => 23
  | .binary64 => 52

/-- The value of the format nearest to `x`, a tie going to the even significand:
the result of a floating-point operation whose exact result is `x`, and of the
conversion of an `int` `x`. The exponent range is not limited. -/
def roundToFormat (fmt : FloatFormat) (x : ℚ) : ℚ :=
  if x = 0 then 0
  else
    (cvRound (x / (2 : ℚ) ^ (Int.log 2 |x| - (fmt.fractionBits : Int))) : ℚ)
      * (2 : ℚ) ^ (Int.log 2 |x| - (fmt.fractionBits : Int))

/-- Detector kinds `tracking::Detectors` the examples name. -/
inductive Detectors where
  | Motion_VIBE
  | Motion_MOG
  | Motion_GMG
  | Motion_CNT
  | Motion_SuBSENSE
  | Motion_LOBSTER
  | Motion_MOG2
  | Face_HAAR
  | Pedestrian_HOG
  | Pedestrian_C4
  | DNN_OCV
  | Yolo_Darknet
  | Yolo_TensorRT
deriving DecidableEq

/-- Object classes `ObjectTypes` the examples name. -/
inductive ObjectTypes where
  | obj_person
  | obj_car
  | obj_bicycle
  | obj_motorbike
  | obj_bus
  | obj_truck
deriving DecidableEq

/-- Configuration table `config_t`, a multimap of strings: the entries in the order
of the `emplace` calls. -/
abbrev config_t := List (String × String)

/-- The reference frame `cv::UMat` the set-up functions receive: its size. -/
structure UMat where
  cols : Int
  rows : Int
deriving DecidableEq

/-- What one run of `InitDetector` leaves behind: the value it returns, the pointer
`m_detector` (`none` is the null pointer) and the arguments of the calls of
`SetMinObjectSize` it made, in order. -/
structure InitDetectorResult (D : Type) where
  ret : Bool
  m_detector : Option D
  SetMinObjectSize : List Size

/-- The members of `MotionDetectorExample` the set-up reads: the frame rate `m_fps`
of the base class, `m_minObjWidth` and `m_minStaticTime`. -/
structure MotionDetectorExample where
  m_fps : ℚ
  m_minObjWidth : Int
  m_minStaticTime : Int
deriving DecidableEq

/-- The constructor of `MotionDetectorExample` (lines 44-49 and 212-213):
`m_minObjWidth(10)`, and `m_minStaticTime = 5` from its member initialiser. -/
def MotionDetectorExample.new (fps : ℚ) : MotionDetectorExample :=
  { m_fps := fps, m_minObjWidth := 10, m_minStaticTime := 5 }

/-- Lines 61-100: the configuration table of the motion detector `detectorType`. -/
def MotionDetectorExample.config (self : MotionDetectorExample) (detectorType : Detectors) :
    config_t :=
  let config : config_t := [("useRotatedRect", "0")]
  match detectorType with
  | .Motion_VIBE =>
    config ++ [("samples", "20"), ("pixelNeighbor", "1"), ("distanceThreshold", "20"),
      ("matchingThreshold", "3"), ("updateFactor", "16")]
  | .Motion_MOG =>
    config ++ [("history", toString (cvRound (50 * self.m_minStaticTime * self.m_fps))),
      ("nmixtures", "3"), ("backgroundRatio", "0.7"), ("noiseSigma", "0")]
  | .Motion_GMG =>
    config ++ [("initializationFrames", "50"), ("decisionThreshold", "0.7")]
  | .Motion_CNT =>
    config ++ [("minPixelStability", "15"),
      ("maxPixelStability", toString (cvRound (20 * self.m_minStaticTime * self.m_fps))),
      ("useHistory", "1"), ("isParallel", "1")]
  | .Motion_SuBSENSE => config
  | .Motion_LOBSTER => config
  | .Motion_MOG2 =>
    config ++ [("history", toString (cvRound (20 * self.m_minStaticTime * self.m_fps))),
      ("varThreshold", "10"), ("detectShadows", "1")]
  | _ => config

/-- The function `MotionDetectorExample::InitDetector` (lines 57-109): the object
after the call and what the call leaves behind. -/
def MotionDetectorExample.InitDetector {D : Type} (self : MotionDetectorExample)
    (CreateDetector : Detectors → config_t → UMat → Option D) (frame : UMat) :
    MotionDetectorExample × InitDetectorResult D :=
  let self1 := { self with m_minObjWidth := Int.tdiv frame.cols 20 }
  let detectorType := Detectors.Motion_VIBE
  let config := self1.config detectorType
  let m_detector := CreateDetector detectorType config frame
  if m_detector.isSome then
    (self1, { ret := true, m_detector := m_detector,
              SetMinObjectSize := [⟨self1.m_minObjWidth, self1.m_minObjWidth⟩] })
  else
    (self1, { ret := false, m_detector := m_detector, SetMinObjectSize := [] })

/-- Lines 244-245: the configuration table of the face detector. -/
def FaceDetectorExample.config (pathToModel : String) : config_t :=
  [("cascadeFileName", pathToModel ++ "haarcascade_frontalface_alt2.xml")]

/-- The function `FaceDetectorExample::InitDetector` (lines 236-253). -/
def FaceDetectorExample.InitDetector {D : Type} (pathToModel : String)
    (CreateDetector : Detectors → config_t → UMat → Option D) (frame : UMat) :
    InitDetectorResult D :=
  let config := FaceDetectorExample.config pathToModel
  let m_detector := CreateDetector Detectors.Face_HAAR config frame
  if m_detector.isSome then
    { ret := true, m_detector := m_detector,
      SetMinObjectSize := [⟨Int.tdiv frame.cols 20, Int.tdiv frame.rows 20⟩] }
  else
    { ret := false, m_detector := m_detector, SetMinObjectSize := [] }

/-- Lines 333-336: the configuration table of the pedestrian detector. -/
def PedestrianDetectorExample.config (pathToModel : String) (detectorType : Detectors) :
    config_t :=
  [("detectorType", if detectorType = Detectors.Pedestrian_HOG then "HOG" else "C4"),
   ("cascadeFileName1", pathToModel ++ "combined.txt.model"),
   ("cascadeFileName2", pathToModel ++ "combined.txt.model_")]

/-- The function `PedestrianDetectorExample::InitDetector` (lines 323-344). -/
def PedestrianDetectorExample.InitDetector {D : Type} (pathToModel : String)
    (CreateDetector : Detectors → config_t → UMat → Option D) (frame : UMat) :
    InitDetectorResult D :=
  let detectorType := Detectors.Pedestrian_C4
  let config := PedestrianDetectorExample.config pathToModel detectorType
  let m_detector := CreateDetector detectorType config frame
  if m_detector.isSome then
    { ret := true, m_detector := m_detector,
      SetMinObjectSize := [⟨Int.tdiv frame.cols 20, Int.tdiv frame.rows 20⟩] }
  else
    { ret := false, m_detector := m_detector, SetMinObjectSize := [] }

/-- The network models `NNModels` of `OpenCVDNNExample::InitDetector`. -/
inductive NNModels where
  | TinyYOLOv3
  | YOLOv3
  | YOLOv4
  | TinyYOLOv4
  | MobileNetSSD
deriving DecidableEq

/-- The network models `YOLOModels` of `YoloDarknetExample::InitDetector`. -/
inductive YoloDarknetExample.YOLOModels where
  | TinyYOLOv3
  | YOLOv3
  | YOLOv4
  | TinyYOLOv4
deriving DecidableEq

/-- The network models `YOLOModels` of `YoloTensorRTExample::InitDetector`. -/
inductive YoloTensorRTExample.YOLOModels where
  | TinyYOLOv3
  | YOLOv3
  | YOLOv4
  | TinyYOLOv4
  | YOLOv5
deriving DecidableEq

/-- Lines 416-471: the configuration table of the OpenCV network detector. -/
def OpenCVDNNExample.config (pathToModel : String) (usedModel : NNModels) : config_t :=
  let config : config_t :=
    match usedModel with
    | .TinyYOLOv3 =>
      [("modelConfiguration", pathToModel ++ "yolov3-tiny.cfg"),
       ("modelBinary", pathToModel ++ "yolov3-tiny.weights"),
       ("classNames", pathToModel ++ "coco.names"), ("confidenceThreshold", "0.5")]
    | .YOLOv3 =>
      [("modelConfiguration", pathToModel ++ "yolov3.cfg"),
       ("modelBinary", pathToModel ++ "yolov3.weights"),
       ("classNames", pathToModel ++ "coco.names"), ("confidenceThreshold", "0.7")]
    | .YOLOv4 =>
      [("modelConfiguration", pathToModel ++ "yolov4.cfg"),
       ("modelBinary", pathToModel ++ "yolov4.weights"),
       ("classNames", pathToModel ++ "coco.names"), ("confidenceThreshold", "0.5")]
    | .TinyYOLOv4 =>
      [("modelConfiguration", pathToModel ++ "yolov4-tiny.cfg"),
       ("modelBinary", pathToModel ++ "yolov4-tiny.weights"),
       ("classNames", pathToModel ++ "coco.names"), ("confidenceThreshold", "0.5")]
    | .MobileNetSSD =>
      [("modelConfiguration", pathToModel ++ "MobileNetSSD_deploy.prototxt"),
       ("modelBinary", pathToModel ++ "MobileNetSSD_deploy.caffemodel"),
       ("classNames", pathToModel ++ "voc.names"), ("confidenceThreshold", "0.5")]
  config ++ [("maxCropRatio", "-1"), ("dnnTarget", "DNN_TARGET_CPU"),
    ("dnnBackend", "DNN_BACKEND_DEFAULT")]

/-- The function `OpenCVDNNExample::InitDetector` (lines 414-478). -/
def OpenCVDNNExample.InitDetector {D : Type} (pathToModel : String)
    (CreateDetector : Detectors → config_t → UMat → Option D) (frame : UMat) :
    InitDetectorResult D :=
  let usedModel := NNModels.MobileNetSSD
  let config := OpenCVDNNExample.config pathToModel usedModel
  let m_detector := CreateDetector Detectors.DNN_OCV config frame
  let calls : List Size :=
    if m_detector.isSome then [⟨Int.tdiv frame.cols 40, Int.tdiv frame.rows 40⟩] else []
  { ret := m_detector.isSome, m_detector := m_detector, SetMinObjectSize := calls }

/-- The six `white_list` entries both YOLO examples add; `objtype` is the
conversion `(objtype_t)` of an object class to its number. -/
def white_list (objtype : ObjectTypes → Nat) : config_t :=
  [("white_list", toString (objtype .obj_person)), ("white_list", toString (objtype .obj_car)),
   ("white_list", toString (objtype .obj_bicycle)),
   ("white_list", toString (objtype .obj_motorbike)),
   ("white_list", toString (objtype .obj_bus)), ("white_list", toString (objtype .obj_truck))]

/-- Lines 591-640: the configuration table of the Darknet detector. -/
def YoloDarknetExample.config (pathToModel : String) (objtype : ObjectTypes → Nat)
    (usedModel : YoloDarknetExample.YOLOModels) : config_t :=
  let config : config_t :=
    match usedModel with
    | .TinyYOLOv3 =>
      [("modelConfiguration", pathToModel ++ "yolov3-tiny.cfg"),
       ("modelBinary", pathToModel ++ "yolov3-tiny.weights"), ("confidenceThreshold", "0.5")]
    | .YOLOv3 =>
      [("modelConfiguration", pathToModel ++ "yolov3.cfg"),
       ("modelBinary", pathToModel ++ "yolov3.weights"), ("confidenceThreshold", "0.7")]
    | .YOLOv4 =>
      [("modelConfiguration", pathToModel ++ "yolov4.cfg"),
       ("modelBinary", pathToModel ++ "yolov4.weights"), ("confidenceThreshold", "0.5")]
    | .TinyYOLOv4 =>
      [("modelConfiguration", pathToModel ++ "yolov4-tiny.cfg"),
       ("modelBinary", pathToModel ++ "yolov4-tiny.weights"), ("confidenceThreshold", "0.5")]
  config ++ [("classNames", pathToModel ++ "coco.names"), ("maxCropRatio", "-1")]
    ++ white_list objtype

/-- The function `YoloDarknetExample::InitDetector` (lines 589-648). -/
def YoloDarknetExample.InitDetector {D : Type} (pathToModel : String)
    (objtype : ObjectTypes → Nat)
    (CreateDetector : Detectors → config_t → UMat → Option D) (frame : UMat) :
    InitDetectorResult D :=
  let usedModel := YoloDarknetExample.YOLOModels.YOLOv4
  let config := YoloDarknetExample.config pathToModel objtype usedModel
  let m_detector := CreateDetector Detectors.Yolo_Darknet config frame
  if m_detector.isSome then
    { ret := true, m_detector := m_detector,
      SetMinObjectSize := [⟨Int.tdiv frame.cols 40, Int.tdiv frame.rows 40⟩] }
  else
    { ret := false, m_detector := m_detector, SetMinObjectSize := [] }

/-- Lines 774-853: the configuration table of the TensorRT detector. -/
def YoloTensorRTExample.config (pathToModel : String) (objtype : ObjectTypes → Nat)
    (usedModel : YoloTensorRTExample.YOLOModels) : config_t :=
  let config : config_t :=
    match usedModel with
    | .TinyYOLOv3 =>
      [("modelConfiguration", pathToModel ++ "yolov3-tiny.cfg"),
       ("modelBinary", pathToModel ++ "yolov3-tiny.weights"), ("confidenceThreshold", "0.5"),
       ("inference_precison", "FP32"), ("net_type", "YOLOV3_TINY"), ("maxBatch", "4"),
       ("maxCropRatio", "2")]
    | .YOLOv3 =>
      [("modelConfiguration", pathToModel ++ "yolov3.cfg"),
       ("modelBinary", pathToModel ++ "yolov3.weights"), ("confidenceThreshold", "0.7"),
       ("inference_precison", "FP32"), ("net_type", "YOLOV3"), ("maxBatch", "2"),
       ("maxCropRatio", "-1")]
    | .YOLOv4 =>
      [("modelConfiguration", pathToModel ++ "yolov4.cfg"),
       ("modelBinary", pathToModel ++ "yolov4.weights"), ("confidenceThreshold", "0.8"),
       ("inference_precison", "FP32"), ("net_type", "YOLOV4"), ("maxBatch", "1"),
       ("maxCropRatio", "-1")]
    | .TinyYOLOv4 =>
      [("modelConfiguration", pathToModel ++ "yolov4-tiny.cfg"),
       ("modelBinary", pathToModel ++ "yolov4-tiny.weights"), ("confidenceThreshold", "0.5"),
       ("inference_precison", "FP32"), ("net_type", "YOLOV4_TINY"), ("maxBatch", "4"),
       ("maxCropRatio", "1")]
    | .YOLOv5 =>
      [("modelConfiguration", pathToModel ++ "yolov5x.cfg"),
       ("modelBinary", pathToModel ++ "yolov5x.weights"), ("confidenceThreshold", "0.5"),
       ("inference_precison", "FP32"), ("net_type", "YOLOV5"), ("maxBatch", "1"),
       ("maxCropRatio", "-1")]
  config ++ [("classNames", pathToModel ++ "coco.names")] ++ white_list objtype

/-- The function `YoloTensorRTExample::InitDetector` (lines 772-862). -/
def YoloTensorRTExample.InitDetector {D : Type} (pathToModel : String)
    (objtype : ObjectTypes → Nat)
    (CreateDetector : Detectors → config_t → UMat → Option D) (frame : UMat) :
    InitDetectorResult D :=
  let usedModel := YoloTensorRTExample.YOLOModels.YOLOv4
  let config := YoloTensorRTExample.config pathToModel objtype usedModel
  let m_detector := CreateDetector Detectors.Yolo_TensorRT config frame
  if m_detector.isSome then
    { ret := true, m_detector := m_detector,
      SetMinObjectSize := [⟨Int.tdiv frame.cols 40, Int.tdiv frame.rows 40⟩] }
  else
    { ret := false, m_detector := m_detector, SetMinObjectSize := [] }

/-- Distance kinds passed to `SetDistance`. -/
inductive DistType where
  | DistCenters
  | DistRects
  | DistJaccard
deriving DecidableEq

/-- Kalman filter kinds `tracking::KalmanType`. -/
inductive KalmanType where
  | KalmanLinear
  | KalmanUnscented
deriving DecidableEq

/-- Filter goals `tracking::FilterGoal`. -/
inductive FilterGoal where
  | FilterCenter
  | FilterRect
deriving DecidableEq

/-- Visual trackers `tracking::LostTrackType` the examples name. -/
inductive LostTrackType where
  | TrackKCF
  | TrackCSRT
deriving DecidableEq

/-- Assignment strategies `tracking::MatchType` the examples name. -/
inductive MatchType where
  | MatchHungrian
deriving DecidableEq

/-- The members of `TrackerSettings` the examples assign. `distance` is the
argument of `SetDistance`, `nearTypes` the arguments of the `AddNearTypes` calls in
order. The integer members are unbounded integers. -/
structure TrackerSettings where
  distance : DistType
  m_kalmanType : KalmanType
  m_filterGoal : FilterGoal
  m_lostTrackType : LostTrackType
  m_matchType : MatchType
  m_useAcceleration : Bool
  m_dt : ℚ
  m_accelNoiseMag : ℚ
  m_distThres : ℚ
  m_minAreaRadiusPix : ℚ
  m_minAreaRadiusK : ℚ
  m_useAbandonedDetection : Bool
  m_minStaticTime : Int
  m_maxStaticTime : Int
  m_maximumAllowedSkippedFrames : Int
  m_maxTraceLength : Int
  nearTypes : List (ObjectTypes × ObjectTypes × Bool)
deriving DecidableEq

/-- The function `MotionDetectorExample::InitTracker` (lines 115-151): the settings
handed to the tracker; `settings` on entry is the default constructed
`TrackerSettings`. -/
def MotionDetectorExample.InitTracker (self : MotionDetectorExample) (fmt : FloatFormat)
    (settings : TrackerSettings) : TrackerSettings :=
  let settings := { settings with distance := DistType.DistRects }
  let settings := { settings with m_kalmanType := KalmanType.KalmanLinear }
  let settings := { settings with m_filterGoal := FilterGoal.FilterCenter }
  let settings := { settings with m_lostTrackType := LostTrackType.TrackCSRT }
  let settings := { settings with m_matchType := MatchType.MatchHungrian }
  let settings := { settings with m_useAcceleration := false }
  let settings := { settings with m_dt := if settings.m_useAcceleration then 1 / 20 else 1 / 5 }
  let settings := { settings with m_accelNoiseMag := 1 / 5 }
  let settings := { settings with m_distThres := 19 / 20 }
  let settings := { settings with m_minAreaRadiusPix := -1 }
  let settings := { settings with m_minAreaRadiusK := 4 / 5 }
  let settings := { settings with m_useAbandonedDetection := true }
  if settings.m_useAbandonedDetection then
    let settings := { settings with m_minStaticTime := self.m_minStaticTime }
    let settings := { settings with m_maxStaticTime := 10 }
    let settings := { settings with
      m_maximumAllowedSkippedFrames :=
        cvRound (roundToFormat fmt
          (roundToFormat fmt (settings.m_minStaticTime : ℚ) * self.m_fps)) }
    { settings with m_maxTraceLength := 2 * settings.m_maximumAllowedSkippedFrames }
  else
    let settings := { settings with
      m_maximumAllowedSkippedFrames :=
        cvRound (roundToFormat fmt (roundToFormat fmt 2 * self.m_fps)) }
    { settings with
      m_maxTraceLength := cvRound (roundToFormat fmt (roundToFormat fmt 4 * self.m_fps)) }

/-- The function `FaceDetectorExample::InitTracker` (lines 259-277). -/
def FaceDetectorExample.InitTracker (fmt : FloatFormat) (m_fps : ℚ) (frame : UMat)
    (settings : TrackerSettings) : TrackerSettings :=
  let settings := { settings with distance := DistType.DistJaccard }
  let settings := { settings with m_kalmanType := KalmanType.KalmanUnscented }
  let settings := { settings with m_filterGoal := FilterGoal.FilterRect }
  let settings := { settings with m_lostTrackType := LostTrackType.TrackCSRT }
  let settings := { settings with m_matchType := MatchType.MatchHungrian }
  let settings := { settings with m_dt := 3 / 10 }
  let settings := { settings with m_accelNoiseMag := 1 / 10 }
  let settings := { settings with m_distThres := 4 / 5 }
  let settings := { settings with m_minAreaRadiusPix := (frame.rows : ℚ) / 20 }
  let settings := { settings with
    m_maximumAllowedSkippedFrames :=
      cvRound (roundToFormat fmt (m_fps / roundToFormat fmt 2)) }
  { settings with
    m_maxTraceLength := cvRound (roundToFormat fmt (roundToFormat fmt 5 * m_fps)) }

/-- The function `PedestrianDetectorExample::InitTracker` (lines 350-368). -/
def PedestrianDetectorExample.InitTracker (fmt : FloatFormat) (m_fps : ℚ) (frame : UMat)
    (settings : TrackerSettings) : TrackerSettings :=
  let settings := { settings with distance := DistType.DistRects }
  let settings := { settings with m_kalmanType := KalmanType.KalmanLinear }
  let settings := { settings with m_filterGoal := FilterGoal.FilterRect }
  let settings := { settings with m_lostTrackType := LostTrackType.TrackCSRT }
  let settings := { settings with m_matchType := MatchType.MatchHungrian }
  let settings := { settings with m_dt := 3 / 10 }
  let settings := { settings with m_accelNoiseMag := 1 / 10 }
  let settings := { settings with m_distThres := 4 / 5 }
  let settings := { settings with m_minAreaRadiusPix := (frame.rows : ℚ) / 20 }
  let settings := { settings with m_maximumAllowedSkippedFrames := cvRound m_fps }
  { settings with
    m_maxTraceLength := cvRound (roundToFormat fmt (roundToFormat fmt 5 * m_fps)) }

/-- The function `OpenCVDNNExample::InitTracker` (lines 485-508). -/
def OpenCVDNNExample.InitTracker (fmt : FloatFormat) (m_fps : ℚ)
    (settings : TrackerSettings) : TrackerSettings :=
  let settings := { settings with distance := DistType.DistCenters }
  let settings := { settings with m_kalmanType := KalmanType.KalmanLinear }
  let settings := { settings with m_filterGoal := FilterGoal.FilterRect }
  let settings := { settings with m_lostTrackType := LostTrackType.TrackCSRT }
  let settings := { settings with m_matchType := MatchType.MatchHungrian }
  let settings := { settings with m_useAcceleration := false }
  let settings := { settings with m_dt := if settings.m_useAcceleration then 1 / 20 else 2 / 5 }
  let settings := { settings with m_accelNoiseMag := 1 / 5 }
  let settings := { settings with m_distThres := 4 / 5 }
  let settings := { settings with m_minAreaRadiusPix := -1 }
  let settings := { settings with m_minAreaRadiusK := 4 / 5 }
  let settings := { settings with
    m_maximumAllowedSkippedFrames := cvRound (roundToFormat fmt (roundToFormat fmt 2 * m_fps)) }
  { settings with
    m_maxTraceLength := cvRound (roundToFormat fmt (roundToFormat fmt 2 * m_fps)) }

/-- The function `YoloDarknetExample::InitTracker` (lines 656-686). -/
def YoloDarknetExample.InitTracker (fmt : FloatFormat) (m_fps : ℚ)
    (settings : TrackerSettings) : TrackerSettings :=
  let settings := { settings with distance := DistType.DistCenters }
  let settings := { settings with m_kalmanType := KalmanType.KalmanLinear }
  let settings := { settings with m_filterGoal := FilterGoal.FilterRect }
  let settings := { settings with m_lostTrackType := LostTrackType.TrackCSRT }
  let settings := { settings with m_matchType := MatchType.MatchHungrian }
  let settings := { settings with m_useAcceleration := false }
  let settings := { settings with m_dt := if settings.m_useAcceleration then 1 / 20 else 2 / 5 }
  let settings := { settings with m_accelNoiseMag := 1 / 5 }
  let settings := { settings with m_distThres := 4 / 5 }
  let settings := { settings with m_minAreaRadiusPix := -1 }
  let settings := { settings with m_minAreaRadiusK := 4 / 5 }
  let settings := { settings with
    m_maximumAllowedSkippedFrames := cvRound (roundToFormat fmt (roundToFormat fmt 2 * m_fps)) }
  let settings := { settings with
    m_maxTraceLength := cvRound (roundToFormat fmt (roundToFormat fmt 2 * m_fps)) }
  { settings with nearTypes := settings.nearTypes ++
      [(.obj_car, .obj_bus, true), (.obj_car, .obj_truck, true), (.obj_bus, .obj_truck, true),
       (.obj_person, .obj_bicycle, true), (.obj_person, .obj_motorbike, true)] }

/-- The function `YoloTensorRTExample::InitTracker` (lines 867-890). -/
def YoloTensorRTExample.InitTracker (fmt : FloatFormat) (m_fps : ℚ) (frame : UMat)
    (settings : TrackerSettings) : TrackerSettings :=
  let settings := { settings with distance := DistType.DistCenters }
  let settings := { settings with m_kalmanType := KalmanType.KalmanLinear }
  let settings := { settings with m_filterGoal := FilterGoal.FilterCenter }
  let settings := { settings with m_lostTrackType := LostTrackType.TrackKCF }
  let settings := { settings with m_matchType := MatchType.MatchHungrian }
  let settings := { settings with m_dt := 3 / 10 }
  let settings := { settings with m_accelNoiseMag := 1 / 5 }
  let settings := { settings with m_distThres := 4 / 5 }
  let settings := { settings with m_minAreaRadiusPix := (frame.rows : ℚ) / 20 }
  let settings := { settings with
    m_maximumAllowedSkippedFrames := cvRound (roundToFormat fmt (roundToFormat fmt 2 * m_fps)) }
  let settings := { settings with
    m_maxTraceLength := cvRound (roundToFormat fmt (roundToFormat fmt 5 * m_fps)) }
  { settings with nearTypes := settings.nearTypes ++
      [(.obj_car, .obj_bus, false), (.obj_car, .obj_truck, false),
       (.obj_person, .obj_bicycle, true), (.obj_person, .obj_motorbike, true)] }

/-- A default constructed `TrackerSettings`, for evaluation; the set-up functions
hold for every value of it. -/
def defaultSettings : TrackerSettings :=
  { distance := DistType.DistCenters, m_kalmanType := KalmanType.KalmanLinear,
    m_filterGoal := FilterGoal.FilterCenter, m_lostTrackType := LostTrackType.TrackKCF,
    m_matchType := MatchType.MatchHungrian, m_useAcceleration := false, m_dt := 1,
    m_accelNoiseMag := 1 / 10, m_distThres := 1 / 2, m_minAreaRadiusPix := 20,
    m_minAreaRadiusK := 4 / 5, m_useAbandonedDetection := false, m_minStaticTime := 5,
    m_maxStaticTime := 25, m_maximumAllowedSkippedFrames := 25, m_maxTraceLength := 50,
    nearTypes := [] }

/-! ## Tracks and the overlay of the motion example -/

/-- Real valued size `cv::Size2f`. -/
structure Size2f where
  width : ℚ
  height : ℚ
deriving DecidableEq

/-- The rotated rectangle `cv::RotatedRect` of a track, as far as the examples read
it: its size and the integer rectangle `boundingRect()` returns for it. -/
structure RotatedRect where
  size : Size2f
  boundingRect : Rect
deriving DecidableEq

/-- A track as the examples read it: identity, static flag, rotated rectangle, and
the trajectory as the raw tags of its entries (`true` for a raw detection, `false`
for a predicted point), most recent last. -/
structure Track where
  m_ID : Nat
  m_isStatic : Bool
  m_rrect : RotatedRect
  m_trace : List Bool
deriving DecidableEq

/-- A drawing call `DrawData` makes on the frame, with its arguments: `DrawTrack`
of the base class, `DrawFilledRect`, `cv::putText` (text, origin, colour) and
`CalcMotionMap` of the detector. -/
inductive DrawCmd where
  | DrawTrack (resizeCoeff : Int) (track : Track) (drawTrajectory : Bool)
  | DrawFilledRect (rect : Rect) (cl : Scalar) (alpha : Int)
  | putText (text : String) (org : Int × Int) (color : Scalar)
  | CalcMotionMap
deriving DecidableEq

/-- The function `MotionDetectorExample::DrawData` (lines 159-209) on the tracks the
tracker returns: the drawing calls it makes, in order. `IsRobust` is the robustness
test of a track and `getTextSize` the routine `cv::getTextSize`, which returns the
size of a label and its baseline. The log line printed under `m_showLogs` draws
nothing and is left out. -/
def MotionDetectorExample.DrawData (self : MotionDetectorExample)
    (IsRobust : Track → Int → ℚ → Size2f → Bool) (getTextSize : String → Size × Int)
    (frame : Mat) (m_tracks : List Track) : List DrawCmd :=
  let calls := m_tracks.foldl (fun (out : List DrawCmd) (track : Track) =>
    if track.m_isStatic then
      let out := out ++ [DrawCmd.DrawTrack 1 track false]
      let label := "abandoned " ++ toString track.m_ID
      let labelSize := (getTextSize label).1
      let baseLine := (getTextSize label).2
      let brect := clampBrect track.m_rrect.boundingRect labelSize frame.cols frame.rows
      let out := out ++
        [DrawCmd.DrawFilledRect (labelRect brect labelSize baseLine) ⟨255, 0, 255, 0⟩ 150]
      out ++ [DrawCmd.putText label (brect.x, brect.y) ⟨0, 0, 0, 0⟩]
    else if IsRobust track (cvRound (self.m_fps / 4)) (7 / 10) ⟨1 / 10, 8⟩ then
      out ++ [DrawCmd.DrawTrack 1 track true]
    else
      out) []
  calls ++ [DrawCmd.CalcMotionMap]

/-- The share of raw detections among the trajectory entries of a track. -/
def Track.rawPointRatio (track : Track) : ℚ :=
  ((track.m_trace.count true : Nat) : ℚ) / ((track.m_trace.length : Nat) : ℚ)

/-- The aspect ratio width / height of the bounding shape of a track. -/
def Track.aspectRatio (track : Track) : ℚ :=
  track.m_rrect.size.width / track.m_rrect.size.height

/-- Modelled from the spec: the predicate `IsRobust` of a track, which is declared
and defined outside `examples.h`. A track is robust iff its retained trajectory
length is at least `minTrajectorySize`, the fraction of trajectory points that are
raw detections is at least `minRawPointRatio`, and the aspect ratio width / height
of its bounding shape lies within `[sizeRatio.width, sizeRatio.height]`. -/
def IsRobust (track : Track) (minTrajectorySize : Int) (minRawPointRatio : ℚ)
    (sizeRatio : Size2f) : Bool :=
  decide (minTrajectorySize ≤ (track.m_trace.length : Int)
    ∧ minRawPointRatio ≤ track.rawPointRatio
    ∧ sizeRatio.width ≤ track.aspectRatio ∧ track.aspectRatio ≤ sizeRatio.height)

/-- A track with a trajectory of `10` points, `8` of them raw detections, and a
square bounding shape: raw ratio `0.8`, aspect ratio `1`. -/
def sampleTrack : Track :=
  { m_ID := 7, m_isStatic := false,
    m_rrect := { size := ⟨40, 40⟩, boundingRect := ⟨100, 100, 40, 40⟩ },
    m_trace := [true, true, false, true, true, true, false, true, true, true] }

/-- The drawing calls one pass of the loop of `MotionDetectorExample::DrawData` adds
for `track` (lines 168-206). -/
def MotionDetectorExample.trackCalls (self : MotionDetectorExample)
    (IsRobust : Track → Int → ℚ → Size2f → Bool) (getTextSize : String → Size × Int)
    (frame : Mat) (track : Track) : List DrawCmd :=
  if track.m_isStatic then
    [DrawCmd.DrawTrack 1 track false,
     DrawCmd.DrawFilledRect
       (labelRect
         (clampBrect track.m_rrect.boundingRect
           (getTextSize ("abandoned " ++ toString track.m_ID)).1 frame.cols frame.rows)
         (getTextSize ("abandoned " ++ toString track.m_ID)).1
         (getTextSize ("abandoned " ++ toString track.m_ID)).2)
       ⟨255, 0, 255, 0⟩ 150,
     DrawCmd.putText ("abandoned " ++ toString track.m_ID)
       ((clampBrect track.m_rrect.boundingRect
           (getTextSize ("abandoned " ++ toString track.m_ID)).1 frame.cols frame.rows).x,
        (clampBrect track.m_rrect.boundingRect
           (getTextSize ("abandoned " ++ toString track.m_ID)).1 frame.cols frame.rows).y)
       ⟨0, 0, 0, 0⟩]
  else if IsRobust track (cvRound (self.m_fps / 4)) (7 / 10) ⟨1 / 10, 8⟩ then
    [DrawCmd.DrawTrack 1 track true]
  else
    []

/-- The run of `InitDetector` that left `r` behind reports the outcome `created` of
its call of `CreateDetector`: it stores the pointer, returns `true` exactly when the
pointer is not null, and a null pointer goes with the return value `false` and no
call of `SetMinObjectSize`. -/
def InitDetectorResult.reports {D : Type} (r : InitDetectorResult D) (created : Option D) :
    Prop :=
  r.m_detector = created ∧ (r.ret = true ↔ created ≠ none)
    ∧ (created = none ↔ (r.ret = false ∧ r.SetMinObjectSize = []))

/-! ## The loops of `DrawFilledRect` -/

/-- A store changes exactly the addressed channel. -/
theorem Mat.set_px (m : Mat) (y x : Int) (i : Nat) (v : Int) (y1 x1 : Int) (i1 : Nat) :
    (m.set y x i v).px y1 x1 i1 = if y1 = y ∧ x1 = x ∧ i1 = i then v else m.px y1 x1 i1 := rfl

/-- The channel loop rewrites the channels `i1 < nchans` of the pixel `(y, x)`, each
from its own previous value, and nothing else. -/
theorem blendPixel_px (alpha_1 alpha : Int) (color : List Int) (nchans : Nat) (y x : Int)
    (frame : Mat) (y1 x1 : Int) (i1 : Nat) :
    (blendPixel alpha_1 alpha color nchans y x frame).px y1 x1 i1 =
      if y1 = y ∧ x1 = x ∧ i1 < nchans
      then blendValue alpha_1 alpha (frame.px y1 x1 i1) (color.getD i1 0)
      else frame.px y1 x1 i1 := by
  induction nchans with
  | zero => simp [blendPixel]
  | succ n ih =>
    unfold blendPixel at ih ⊢
    rw [List.range_succ, List.foldl_append, List.foldl_cons, List.foldl_nil, Mat.set_px, ih]
    by_cases h : y1 = y ∧ x1 = x
    · obtain ⟨rfl, rfl⟩ := h
      by_cases h2 : i1 = n
      · subst h2
        rw [ih]
        simp
      · have h3 : i1 < n + 1 ↔ i1 < n := by omega
        simp [h2, h3]
    · have h4 : ¬ (y1 = y ∧ x1 = x ∧ i1 = n) := fun hh => h ⟨hh.1, hh.2.1⟩
      have h5 : ¬ (y1 = y ∧ x1 = x ∧ i1 < n) := fun hh => h ⟨hh.1, hh.2.1⟩
      have h6 : ¬ (y1 = y ∧ x1 = x ∧ i1 < n + 1) := fun hh => h ⟨hh.1, hh.2.1⟩
      simp only [h4, h5, h6, if_false]

/-- A counting loop whose body at index `k` rewrites the channels selected by `hit k`,
each from its own previous value, rewrites a channel hit by some index of the range
exactly once, provided no channel is hit by two indices. -/
theorem forRange_px_hit (lo hi : Int) (upd : Int → Mat → Mat)
    (hit : Int → Int → Int → Nat → Prop) (val : Int → Nat → Int)
    (hhit : ∀ k m y x i, hit k y x i → (upd k m).px y x i = val (m.px y x i) i)
    (hmiss : ∀ k m y x i, ¬ hit k y x i → (upd k m).px y x i = m.px y x i)
    (hdisj : ∀ k k1 y x i, hit k y x i → hit k1 y x i → k = k1)
    (m : Mat) (y x : Int) (i : Nat) :
    (∀ k, lo ≤ k → k < hi → hit k y x i → (forRange lo hi upd m).px y x i = val (m.px y x i) i)
    ∧ ((∀ k, lo ≤ k → k < hi → ¬ hit k y x i) → (forRange lo hi upd m).px y x i = m.px y x i) := by
  unfold forRange
  have key : ∀ n : Nat,
      (∀ j : Nat, j < n → hit (lo + (j : Int)) y x i →
        ((List.range n).foldl (fun acc (k : Nat) => upd (lo + (k : Int)) acc) m).px y x i
          = val (m.px y x i) i)
      ∧ ((∀ j : Nat, j < n → ¬ hit (lo + (j : Int)) y x i) →
        ((List.range n).foldl (fun acc (k : Nat) => upd (lo + (k : Int)) acc) m).px y x i
          = m.px y x i) := by
    intro n
    induction n with
    | zero =>
      refine ⟨fun j hj => absurd hj (Nat.not_lt_zero j), fun _ => ?_⟩
      simp
    | succ n ih =>
      obtain ⟨ihHit, ihMiss⟩ := ih
      rw [List.range_succ, List.foldl_append, List.foldl_cons, List.foldl_nil]
      constructor
      · intro j hj hjhit
        by_cases hjn : j = n
        · subst hjn
          rw [hhit _ _ _ _ _ hjhit]
          congr 1
          apply ihMiss
          intro j1 hj1 hj1hit
          have := hdisj _ _ _ _ _ hj1hit hjhit
          omega
        · have hlt : j < n := by omega
          have hnot : ¬ hit (lo + (n : Int)) y x i := by
            intro hn
            have := hdisj _ _ _ _ _ hn hjhit
            omega
          rw [hmiss _ _ _ _ _ hnot]
          exact ihHit j hlt hjhit
      · intro hall
        rw [hmiss _ _ _ _ _ (hall n (Nat.lt_succ_self n))]
        exact ihMiss (fun j hj => hall j (Nat.lt_succ_of_lt hj))
  obtain ⟨kHit, kMiss⟩ := key (hi - lo).toNat
  constructor
  · intro k hlo hhi hk
    have hk2 : lo + (((k - lo).toNat : Nat) : Int) = k := by omega
    have := kHit (k - lo).toNat (by omega) (by rw [hk2]; exact hk)
    exact this
  · intro hall
    apply kMiss
    intro j hj
    exact hall _ (by omega) (by omega)

/-- The column loop of `DrawFilledRect` (lines 22-29) on row `y`. -/
theorem rowLoop_px (alpha_1 alpha : Int) (color : List Int) (nchans : Nat) (y lo hi : Int)
    (m : Mat) (y1 x1 : Int) (i1 : Nat) :
    (forRange lo hi (fun x m1 => blendPixel alpha_1 alpha color nchans y x m1) m).px y1 x1 i1 =
      if y1 = y ∧ lo ≤ x1 ∧ x1 < hi ∧ i1 < nchans
      then blendValue alpha_1 alpha (m.px y1 x1 i1) (color.getD i1 0)
      else m.px y1 x1 i1 := by
  have hloop := forRange_px_hit lo hi
    (fun x m1 => blendPixel alpha_1 alpha color nchans y x m1)
    (fun k y2 x2 i2 => y2 = y ∧ x2 = k ∧ i2 < nchans)
    (fun p i => blendValue alpha_1 alpha p (color.getD i 0))
    (fun k m2 y2 x2 i2 h => by simp only [blendPixel_px]; rw [if_pos h])
    (fun k m2 y2 x2 i2 h => by simp only [blendPixel_px]; rw [if_neg h])
    (fun k k1 y2 x2 i2 h h1 => h.2.1.symm.trans h1.2.1)
    m y1 x1 i1
  by_cases h : y1 = y ∧ lo ≤ x1 ∧ x1 < hi ∧ i1 < nchans
  · rw [if_pos h]
    exact hloop.1 x1 h.2.1 h.2.2.1 ⟨h.1, rfl, h.2.2.2⟩
  · rw [if_neg h]
    apply hloop.2
    intro k hk1 hk2 hk
    exact h ⟨hk.1, hk.2.1 ▸ hk1, hk.2.1 ▸ hk2, hk.2.2⟩

/-- The blending branch of `DrawFilledRect`: a channel the loops visit is replaced by
the blend of its previous value, every other channel keeps its value. -/
theorem DrawFilledRect_px (frame : Mat) (rect : Rect) (cl : Scalar) (alpha : Int)
    (halpha : alpha ≠ 0) (y x : Int) (i : Nat) :
    (DrawFilledRect frame rect cl alpha).px y x i =
      if rect.covers y x ∧ i < frame.channels
      then blendValue (255 - alpha) alpha (frame.px y x i) ([cl.v0, cl.v1, cl.v2].getD i 0)
      else frame.px y x i := by
  unfold DrawFilledRect
  rw [if_pos halpha]
  simp only [saturate_cast_int]
  have hloop := forRange_px_hit rect.y (rect.y + rect.height)
    (fun y m => forRange rect.x (rect.x + rect.width) (fun x m1 =>
      blendPixel (255 - alpha) alpha [cl.v0, cl.v1, cl.v2] frame.channels y x m1) m)
    (fun k y2 x2 i2 => y2 = k ∧ rect.x ≤ x2 ∧ x2 < rect.x + rect.width ∧ i2 < frame.channels)
    (fun p i => blendValue (255 - alpha) alpha p ([cl.v0, cl.v1, cl.v2].getD i 0))
    (fun k m2 y2 x2 i2 h => by simp only [rowLoop_px]; rw [if_pos h])
    (fun k m2 y2 x2 i2 h => by simp only [rowLoop_px]; rw [if_neg h])
    (fun k k1 y2 x2 i2 h h1 => h.1.symm.trans h1.1)
    frame y x i
  by_cases h : rect.covers y x ∧ i < frame.channels
  · rw [if_pos h]
    obtain ⟨⟨h1, h2, h3, h4⟩, h5⟩ := h
    exact hloop.1 y h1 h2 ⟨rfl, h3, h4, h5⟩
  · rw [if_neg h]
    apply hloop.2
    intro k hk1 hk2 hk
    exact h ⟨⟨hk.1 ▸ hk1, hk.1 ▸ hk2, hk.2.1, hk.2.2.1⟩, hk.2.2.2⟩

/-- The three entries of the array `color` are the first three entries of `cl`. -/
theorem color_getD (cl : Scalar) (i : Nat) (hi : i < 3) :
    [cl.v0, cl.v1, cl.v2].getD i 0 = cl.get i := by
  interval_cases i <;> rfl

/-- The blending branch on a visited channel, in terms of the colour entry. -/
theorem DrawFilledRect_px_blend (frame : Mat) (rect : Rect) (cl : Scalar) (alpha : Int)
    (halpha : alpha ≠ 0) (y x : Int) (i : Nat) (hcov : rect.covers y x)
    (hi : i < frame.channels) (hi3 : i < 3) :
    (DrawFilledRect frame rect cl alpha).px y x i =
      blendValue (255 - alpha) alpha (frame.px y x i) (cl.get i) := by
  rw [DrawFilledRect_px frame rect cl alpha halpha, if_pos ⟨hcov, hi⟩, color_getD cl i hi3]

/-- The direct-fill branch of `DrawFilledRect` on a pixel of the frame inside the
rectangle. -/
theorem DrawFilledRect_px_fill (frame : Mat) (rect : Rect) (cl : Scalar)
    (y x : Int) (i : Nat) (hcov : rect.covers y x) (hin : frame.inFrame y x)
    (hi : i < frame.channels) :
    (DrawFilledRect frame rect cl 0).px y x i = saturate_cast_uchar (cl.get i) := by
  obtain ⟨h1, h2, h3, h4⟩ := hcov
  obtain ⟨h5, h6, h7, h8⟩ := hin
  simp only [DrawFilledRect, rectangle, ne_eq, not_true_eq_false, if_false]
  rw [if_pos ⟨h5, h6, h7, h8, h1, h2, h3, h4, hi⟩]

/-! ## Arithmetic of the blend -/

/-- The weighted sum of two channel values lies between `0` and `255 * 255`. -/
theorem weighted_sum_bounds (a p c : Int) (ha0 : 0 ≤ a) (ha : a ≤ 255)
    (hp0 : 0 ≤ p) (hp : p ≤ 255) (hc0 : 0 ≤ c) (hc : c ≤ 255) :
    0 ≤ (255 - a) * p + a * c ∧ (255 - a) * p + a * c ≤ 255 * 255 := by
  constructor <;> nlinarith [mul_nonneg (sub_nonneg.2 ha) hp0, mul_nonneg ha0 hc0,
    mul_nonneg (sub_nonneg.2 ha) (sub_nonneg.2 hp), mul_nonneg ha0 (sub_nonneg.2 hc)]

/-- The weighted sum lies between `255 * min p c` and `255 * max p c`. -/
theorem weighted_sum_between (a p c : Int) (ha0 : 0 ≤ a) (ha : a ≤ 255) :
    255 * min p c ≤ (255 - a) * p + a * c ∧ (255 - a) * p + a * c ≤ 255 * max p c := by
  have h1 : min p c ≤ p := min_le_left p c
  have h2 : min p c ≤ c := min_le_right p c
  have h3 : p ≤ max p c := le_max_left p c
  have h4 : c ≤ max p c := le_max_right p c
  constructor <;> nlinarith [mul_nonneg (sub_nonneg.2 ha) (sub_nonneg.2 h1),
    mul_nonneg ha0 (sub_nonneg.2 h2), mul_nonneg (sub_nonneg.2 ha) (sub_nonneg.2 h3),
    mul_nonneg ha0 (sub_nonneg.2 h4)]

/-- On channel values the stored value is the floor quotient; the saturating
conversion does not change it. -/
theorem blendValue_eq_ediv (a p c : Int) (ha0 : 0 ≤ a) (ha : a ≤ 255)
    (hp0 : 0 ≤ p) (hp : p ≤ 255) (hc0 : 0 ≤ c) (hc : c ≤ 255) :
    blendValue (255 - a) a p c = ((255 - a) * p + a * c) / 255 := by
  obtain ⟨h0, h1⟩ := weighted_sum_bounds a p c ha0 ha hp0 hp hc0 hc
  unfold blendValue saturate_cast_uchar
  rw [Int.tdiv_eq_ediv h0 (by decide)]
  generalize (255 - a) * p + a * c = n at h0 h1
  have h2 : 0 ≤ n / 255 := by omega
  have h3 : n / 255 ≤ 255 := by omega
  rw [if_neg (by omega), if_neg (by omega)]

/-- The floor of the rational quotient by `255` is the integer floor quotient. -/
theorem floor_div255 (n : Int) : ⌊(n : ℚ) / 255⌋ = n / 255 := by
  rw [Int.floor_eq_iff]
  have h255 : (0 : ℚ) < 255 := by norm_num
  constructor
  · rw [le_div_iff₀ h255]
    have : n / 255 * 255 ≤ n := by omega
    exact_mod_cast this
  · rw [div_lt_iff₀ h255]
    have : n < (n / 255 + 1) * 255 := by omega
    exact_mod_cast this

/-- Rounding the quotient by `255` to the nearest integer gives the floor quotient or
its successor. -/
theorem roundDiv255_bounds (n : Int) : n / 255 ≤ roundDiv255 n ∧ roundDiv255 n ≤ n / 255 + 1 := by
  unfold roundDiv255
  rw [round_eq, ← floor_div255 n]
  constructor
  · apply Int.floor_le_floor
    linarith
  · rw [← Int.floor_add_one]
    apply Int.floor_le_floor
    linarith

/-! ## The value `DrawFilledRect` writes -/

/-- C1 (counterexample): with weight `1` over the value `0` and fill colour `200` the
exact quotient is `200 / 255`, which rounds to `1`; `DrawFilledRect` writes `0`. -/
theorem DrawFilledRect_round_counterexample :
    (DrawFilledRect (constFrame 4 4 0) ⟨1, 1, 2, 2⟩ ⟨200, 200, 200, 0⟩ 1).px 1 1 0 = 0
    ∧ saturate_cast_uchar (roundDiv255 ((255 - 1) * 0 + 1 * 200)) = 1
    ∧ (DrawFilledRect (constFrame 4 4 0) ⟨1, 1, 2, 2⟩ ⟨200, 200, 200, 0⟩ 1).px 1 1 0
        ≠ saturate_cast_uchar (roundDiv255 ((255 - 1) * 0 + 1 * 200)) := by
  have h1 : (DrawFilledRect (constFrame 4 4 0) ⟨1, 1, 2, 2⟩ ⟨200, 200, 200, 0⟩ 1).px 1 1 0 = 0 := by
    decide
  have h2 : roundDiv255 ((255 - 1) * 0 + 1 * 200) = 1 := by
    unfold roundDiv255
    rw [round_eq, Int.floor_eq_iff]
    norm_num
  have h3 : saturate_cast_uchar (roundDiv255 ((255 - 1) * 0 + 1 * 200)) = 1 := by
    rw [h2]
    decide
  refine ⟨h1, h3, ?_⟩
  rw [h1, h3]
  decide

/-- C1 (amended): for every weight `a` in `1..255`, every existing channel value `p`
in `0..255` and every fill colour channel `c` in `0..255`, the value `DrawFilledRect`
writes to the channel is the exact quotient `((255 - a) * p + a * c) / 255` rounded
down, then clamped to `0..255` (which leaves it unchanged); it is the nearest integer
or one below it. -/
theorem DrawFilledRect_blend_floor (frame : Mat) (rect : Rect) (cl : Scalar) (a : Int)
    (y x : Int) (i : Nat) (p c : Int) (h : ChannelAt frame rect cl y x i p c)
    (ha1 : 1 ≤ a) (ha : a ≤ 255) :
    (DrawFilledRect frame rect cl a).px y x i
        = saturate_cast_uchar (floorDiv255 ((255 - a) * p + a * c))
    ∧ saturate_cast_uchar (floorDiv255 ((255 - a) * p + a * c))
        = floorDiv255 ((255 - a) * p + a * c)
    ∧ roundDiv255 ((255 - a) * p + a * c) - 1 ≤ (DrawFilledRect frame rect cl a).px y x i
    ∧ (DrawFilledRect frame rect cl a).px y x i ≤ roundDiv255 ((255 - a) * p + a * c) := by
  obtain ⟨_, hcov, hi, hi3, hp, hp0, hp255, hc, hc0, hc255⟩ := h
  have hr : (DrawFilledRect frame rect cl a).px y x i = ((255 - a) * p + a * c) / 255 := by
    rw [DrawFilledRect_px_blend frame rect cl a (by omega) y x i hcov hi hi3, hp, hc]
    exact blendValue_eq_ediv a p c (by omega) ha hp0 hp255 hc0 hc255
  obtain ⟨h0, h1⟩ := weighted_sum_bounds a p c (by omega) ha hp0 hp255 hc0 hc255
  obtain ⟨h2, h3⟩ := roundDiv255_bounds ((255 - a) * p + a * c)
  have hf : floorDiv255 ((255 - a) * p + a * c) = ((255 - a) * p + a * c) / 255 :=
    floor_div255 _
  have hs : saturate_cast_uchar (((255 - a) * p + a * c) / 255)
      = ((255 - a) * p + a * c) / 255 := by
    unfold saturate_cast_uchar
    generalize (255 - a) * p + a * c = n at h0 h1
    rw [if_neg (by omega), if_neg (by omega)]
  rw [hr, hf, hs]
  refine ⟨rfl, rfl, ?_, ?_⟩ <;> omega

/-- C1 (witness of the amended statement): weight `150` over the value `100` with
fill colour `200`. -/
theorem DrawFilledRect_blend_floor_witness :
    ChannelAt (constFrame 4 4 100) ⟨1, 1, 2, 2⟩ ⟨200, 200, 200, 0⟩ 1 1 0 100 200
    ∧ (DrawFilledRect (constFrame 4 4 100) ⟨1, 1, 2, 2⟩ ⟨200, 200, 200, 0⟩ 150).px 1 1 0
        = saturate_cast_uchar (floorDiv255 ((255 - 150) * 100 + 150 * 200)) :=
  ⟨by decide,
   (DrawFilledRect_blend_floor (constFrame 4 4 100) ⟨1, 1, 2, 2⟩ ⟨200, 200, 200, 0⟩ 150
      1 1 0 100 200 (by decide) (by decide) (by decide)).1⟩

/-- C2: for every weight `a` in `0..255`, every existing channel value `p` in `0..255`
and every fill colour channel `c` in `0..255`, the value `r` that `DrawFilledRect`
leaves in a pixel inside the rectangle satisfies `min p c ≤ r ≤ max p c`. -/
theorem DrawFilledRect_between (frame : Mat) (rect : Rect) (cl : Scalar) (a : Int)
    (y x : Int) (i : Nat) (p c : Int) (h : ChannelAt frame rect cl y x i p c)
    (ha0 : 0 ≤ a) (ha : a ≤ 255) :
    min p c ≤ (DrawFilledRect frame rect cl a).px y x i
    ∧ (DrawFilledRect frame rect cl a).px y x i ≤ max p c := by
  obtain ⟨hin, hcov, hi, hi3, hp, hp0, hp255, hc, hc0, hc255⟩ := h
  by_cases hz : a = 0
  · subst hz
    rw [DrawFilledRect_px_fill frame rect cl y x i hcov hin hi, hc]
    unfold saturate_cast_uchar
    rw [if_neg (by omega), if_neg (by omega)]
    exact ⟨min_le_right p c, le_max_right p c⟩
  · rw [DrawFilledRect_px_blend frame rect cl a hz y x i hcov hi hi3, hp, hc,
      blendValue_eq_ediv a p c ha0 ha hp0 hp255 hc0 hc255]
    obtain ⟨h1, h2⟩ := weighted_sum_between a p c ha0 ha
    generalize (255 - a) * p + a * c = n at h1 h2
    generalize min p c = lo at h1
    generalize max p c = hi1 at h2
    constructor <;> omega

/-- C2 (witness): weight `150` over the value `100` with fill
colour `200`. -/
theorem DrawFilledRect_between_witness :
    ChannelAt (constFrame 4 4 100) ⟨1, 1, 2, 2⟩ ⟨200, 200, 200, 0⟩ 2 2 1 100 200
    ∧ min 100 200
        ≤ (DrawFilledRect (constFrame 4 4 100) ⟨1, 1, 2, 2⟩ ⟨200, 200, 200, 0⟩ 150).px 2 2 1
    ∧ (DrawFilledRect (constFrame 4 4 100) ⟨1, 1, 2, 2⟩ ⟨200, 200, 200, 0⟩ 150).px 2 2 1
        ≤ max 100 200 :=
  ⟨by decide,
   DrawFilledRect_between (constFrame 4 4 100) ⟨1, 1, 2, 2⟩ ⟨200, 200, 200, 0⟩ 150
      2 2 1 100 200 (by decide) (by decide) (by decide)⟩

/-! ## The label-placement clamping of `DrawData` -/

/-- The vertical clamping leaves the column and the width alone. -/
theorem clampVertical_x_width (brect : Rect) (labelSize : Size) (rows : Int) :
    (clampVertical brect labelSize rows).x = brect.x
    ∧ (clampVertical brect labelSize rows).width = brect.width := by
  unfold clampVertical
  split_ifs <;> exact ⟨rfl, rfl⟩

/-- The horizontal clamping leaves the row and the height alone. -/
theorem clampHorizontal_y_height (brect : Rect) (cols : Int) :
    (clampHorizontal brect cols).y = brect.y
    ∧ (clampHorizontal brect cols).height = brect.height := by
  unfold clampHorizontal
  split_ifs <;> exact ⟨rfl, rfl⟩

/-- An exact result that fits an `int` is the result. -/
theorem wrapInt_of_fits (v : Int) (h : fitsInt v) : wrapInt v = v := by
  unfold fitsInt INT_MIN INT_MAX at h
  unfold wrapInt
  omega

/-- C3 (counterexample): the box `(2147483647, 50, 10, 10)` of `int` values in a frame
of width `100`. The sum `x + width` overflows, its wrapped value `-2147483639` is
below the frame width, and the clamping leaves the box alone: `x + width` is not
below `100`. -/
theorem clampBrect_horizontal_overflow_counterexample :
    (Rect.mk 2147483647 50 10 10).fitsInt ∧ (0 : Int) ≤ (Rect.mk 2147483647 50 10 10).width
    ∧ (1 : Int) ≤ 100
    ∧ wrapInt ((Rect.mk 2147483647 50 10 10).x + (Rect.mk 2147483647 50 10 10).width)
        = -2147483639
    ∧ clampBrect ⟨2147483647, 50, 10, 10⟩ ⟨40, 10⟩ 100 480 = ⟨2147483647, 50, 10, 10⟩
    ∧ ¬ ((clampBrect ⟨2147483647, 50, 10, 10⟩ ⟨40, 10⟩ 100 480).x
          + (clampBrect ⟨2147483647, 50, 10, 10⟩ ⟨40, 10⟩ 100 480).width < 100) := by
  decide

/-- C3 (amended): horizontal clamping safety. For every bounding rectangle of `int`
values (any `x`, width `≥ 0`) and every frame width `cols ≥ 1`, the `x` produced by
the label-placement clamping in `DrawData` satisfies `0 ≤ x`, and the `x` and
`width` produced satisfy `x + width < cols` exactly when the right edge `x + width`
of the rectangle on entry does not overflow an `int`. -/
theorem clampBrect_horizontal_safe (brect : Rect) (labelSize : Size) (cols rows : Int)
    (hint : brect.fitsInt) (hcolsInt : fitsInt cols)
    (hw : 0 ≤ brect.width) (hcols : 1 ≤ cols) :
    0 ≤ (clampBrect brect labelSize cols rows).x
    ∧ ((clampBrect brect labelSize cols rows).x
          + (clampBrect brect labelSize cols rows).width < cols
        ↔ brect.x + brect.width ≤ INT_MAX) := by
  unfold clampBrect
  obtain ⟨hx, hwd⟩ := clampVertical_x_width (clampHorizontal brect cols) labelSize rows
  rw [hx, hwd]
  obtain ⟨⟨hx1, hx2⟩, -, ⟨hw1, hw2⟩, -⟩ := hint
  obtain ⟨hc1, hc2⟩ := hcolsInt
  unfold INT_MIN at hx1 hw1 hc1
  unfold INT_MAX at hx2 hw2 hc2 ⊢
  unfold clampHorizontal wrapInt
  split_ifs with h1 h2 <;> (try dsimp only) <;> constructor <;> omega

/-- C3 (witness of the amended statement): a box that sticks out of the right edge
of a frame of width `100`. -/
theorem clampBrect_horizontal_safe_witness :
    (Rect.mk 90 20 30 10).fitsInt ∧ fitsInt 100
    ∧ (0 : Int) ≤ (Rect.mk 90 20 30 10).width ∧ (1 : Int) ≤ 100
    ∧ (Rect.mk 90 20 30 10).x + (Rect.mk 90 20 30 10).width ≤ INT_MAX
    ∧ 0 ≤ (clampBrect ⟨90, 20, 30, 10⟩ ⟨40, 10⟩ 100 50).x
    ∧ (clampBrect ⟨90, 20, 30, 10⟩ ⟨40, 10⟩ 100 50).x
        + (clampBrect ⟨90, 20, 30, 10⟩ ⟨40, 10⟩ 100 50).width < 100 :=
  ⟨by decide, by decide, by decide, by decide, by decide,
   (clampBrect_horizontal_safe ⟨90, 20, 30, 10⟩ ⟨40, 10⟩ 100 50
      (by decide) (by decide) (by decide) (by decide)).1,
   (clampBrect_horizontal_safe ⟨90, 20, 30, 10⟩ ⟨40, 10⟩ 100 50
      (by decide) (by decide) (by decide) (by decide)).2.2 (by decide)⟩

/-- C4 (counterexample): a box at the top of a frame of height `50` (`y = 0`,
height `45`), label height `10`, baseline `4`: the clamping moves the box down to
`y = 10` and keeps its height `45`, so `y + height = 55` is not below `50`. -/
theorem clampBrect_vertical_counterexample :
    (0 : Int) ≤ (Rect.mk 10 0 20 45).height ∧ (0 : Int) ≤ (Size.mk 80 10).height
    ∧ (Size.mk 80 10).height + 4 ≤ (50 : Int)
    ∧ clampBrect ⟨10, 0, 20, 45⟩ ⟨80, 10⟩ 100 50 = ⟨10, 10, 20, 45⟩
    ∧ ¬ ((clampBrect ⟨10, 0, 20, 45⟩ ⟨80, 10⟩ 100 50).y
          + (clampBrect ⟨10, 0, 20, 45⟩ ⟨80, 10⟩ 100 50).height < 50) := by
  decide

/-- C4 (amended): vertical clamping. For every bounding rectangle of `int` values (any
`y`, height `≥ 0`), every label height `≥ 0` and every frame height
`rows ≥ labelHeight + baseLine`, `rows ≥ 0`, for which `y - labelHeight` and
`y + height` do not overflow an `int`, the clamped `y` satisfies `0 ≤ y`, and the
clamped `y` and `height` satisfy `y + height < rows` exactly when the box leaves
room for the label above it (`labelHeight ≤ y` on entry) or
`labelHeight + min(height, rows - 1) < rows`. -/
theorem clampBrect_vertical_safe (brect : Rect) (labelSize : Size) (baseLine cols rows : Int)
    (hint : brect.fitsInt) (hlabelInt : fitsInt labelSize.height) (hrowsInt : fitsInt rows)
    (hh : 0 ≤ brect.height) (hlabel : 0 ≤ labelSize.height)
    (_hrows : labelSize.height + baseLine ≤ rows) (hrows0 : 0 ≤ rows)
    (hsub : INT_MIN ≤ brect.y - labelSize.height)
    (hadd : brect.y + brect.height ≤ INT_MAX) :
    0 ≤ (clampBrect brect labelSize cols rows).y
    ∧ ((clampBrect brect labelSize cols rows).y
          + (clampBrect brect labelSize cols rows).height < rows
        ↔ (labelSize.height ≤ brect.y
            ∨ labelSize.height + min brect.height (rows - 1) < rows)) := by
  unfold clampBrect
  obtain ⟨hy, hht⟩ := clampHorizontal_y_height brect cols
  obtain ⟨-, ⟨hy1, hy2⟩, -, ⟨hh1, hh2⟩⟩ := hint
  obtain ⟨hl1, hl2⟩ := hlabelInt
  obtain ⟨hr1, hr2⟩ := hrowsInt
  generalize clampHorizontal brect cols = b at hy hht
  unfold INT_MIN at hy1 hh1 hl1 hr1 hsub
  unfold INT_MAX at hy2 hh2 hl2 hr2 hadd
  unfold clampVertical wrapInt
  rw [hy, hht]
  split_ifs with h1 h2 <;> (try dsimp only) <;> constructor <;> omega

/-- C4 (witness of the amended statement): a box that sticks out of the bottom edge
of a frame of height `50`. -/
theorem clampBrect_vertical_safe_witness :
    (Rect.mk 10 30 20 45).fitsInt ∧ fitsInt (Size.mk 80 10).height ∧ fitsInt 50
    ∧ (0 : Int) ≤ (Rect.mk 10 30 20 45).height ∧ (0 : Int) ≤ (Size.mk 80 10).height
    ∧ (Size.mk 80 10).height + 4 ≤ (50 : Int) ∧ (0 : Int) ≤ 50
    ∧ INT_MIN ≤ (Rect.mk 10 30 20 45).y - (Size.mk 80 10).height
    ∧ (Rect.mk 10 30 20 45).y + (Rect.mk 10 30 20 45).height ≤ INT_MAX
    ∧ (Size.mk 80 10).height ≤ (Rect.mk 10 30 20 45).y
    ∧ 0 ≤ (clampBrect ⟨10, 30, 20, 45⟩ ⟨80, 10⟩ 100 50).y
    ∧ (clampBrect ⟨10, 30, 20, 45⟩ ⟨80, 10⟩ 100 50).y
        + (clampBrect ⟨10, 30, 20, 45⟩ ⟨80, 10⟩ 100 50).height < 50 :=
  ⟨by decide, by decide, by decide, by decide, by decide, by decide, by decide, by decide,
   by decide, by decide,
   (clampBrect_vertical_safe ⟨10, 30, 20, 45⟩ ⟨80, 10⟩ 4 100 50
     (by decide) (by decide) (by decide) (by decide) (by decide) (by decide) (by decide)
     (by decide) (by decide)).1,
   (clampBrect_vertical_safe ⟨10, 30, 20, 45⟩ ⟨80, 10⟩ 4 100 50
     (by decide) (by decide) (by decide) (by decide) (by decide) (by decide) (by decide)
     (by decide) (by decide)).2.2 (Or.inl (by decide))⟩

/-- C5 (failing input): a frame of `640 x 480` pixels, a track box
`(x, y, width, height) = (600, 100, 30, 60)` that lies inside the frame, a label of
`110 x 12` pixels with baseline `5`. The clamping leaves the box alone, the label
background is the rectangle `(600, 88, 110, 17)`, which is not inside the frame, and
`DrawFilledRect` writes the blend `150` at column `640` of row `88`, which is not a
pixel of the frame. -/
theorem drawLabelBackground_outside_frame :
    (Size.mk 110 12).width ≤ (640 : Int) ∧ (Size.mk 110 12).height + 5 ≤ (480 : Int)
    ∧ clampBrect ⟨600, 100, 30, 60⟩ ⟨110, 12⟩ 640 480 = ⟨600, 100, 30, 60⟩
    ∧ labelRect (clampBrect ⟨600, 100, 30, 60⟩ ⟨110, 12⟩ 640 480) ⟨110, 12⟩ 5
        = ⟨600, 88, 110, 17⟩
    ∧ ¬ (labelRect (clampBrect ⟨600, 100, 30, 60⟩ ⟨110, 12⟩ 640 480) ⟨110, 12⟩ 5).insideFrame
          640 480
    ∧ ¬ (constFrame 640 480 0).inFrame 88 640
    ∧ (constFrame 640 480 0).px 88 640 0 = 0
    ∧ (drawLabelBackground (constFrame 640 480 0) ⟨600, 100, 30, 60⟩ ⟨110, 12⟩ 5
          ⟨255, 0, 255, 0⟩).px 88 640 0 = 150 := by
  have hrect : labelRect (clampBrect ⟨600, 100, 30, 60⟩ ⟨110, 12⟩ 640 480) ⟨110, 12⟩ 5
      = ⟨600, 88, 110, 17⟩ := by decide
  refine ⟨by decide, by decide, by decide, hrect, by decide, by decide, rfl, ?_⟩
  unfold drawLabelBackground
  have hc : (constFrame 640 480 0).cols = 640 := rfl
  have hr : (constFrame 640 480 0).rows = 480 := rfl
  rw [hc, hr, hrect,
    DrawFilledRect_px_blend (constFrame 640 480 0) ⟨600, 88, 110, 17⟩ ⟨255, 0, 255, 0⟩ 150
      (by decide) 88 640 0 (by decide) (by decide) (by decide)]
  decide

/-- A second input on which the label background leaves the frame, at the top: frame
`100 x 50`, box `(10, 20, 20, 45)`, label `30 x 10`, baseline `4`. The box reaches
below the frame, the clamping moves it up to `y = 4`, and the label background
starts at row `-6`. -/
theorem labelRect_above_frame :
    (Size.mk 30 10).width ≤ (100 : Int) ∧ (Size.mk 30 10).height + 4 ≤ (50 : Int)
    ∧ clampBrect ⟨10, 20, 20, 45⟩ ⟨30, 10⟩ 100 50 = ⟨10, 4, 20, 45⟩
    ∧ labelRect (clampBrect ⟨10, 20, 20, 45⟩ ⟨30, 10⟩ 100 50) ⟨30, 10⟩ 4 = ⟨10, -6, 30, 14⟩
    ∧ ¬ (labelRect (clampBrect ⟨10, 20, 20, 45⟩ ⟨30, 10⟩ 100 50) ⟨30, 10⟩ 4).insideFrame
          100 50 := by
  decide

/-- C6 (counterexample): the box `(10, 0, 20, 20)` is in bounds in a frame of
`100 x 100` pixels; with label height `10` the clamping moves it to `y = 10`. -/
theorem clampBrect_in_bounds_counterexample :
    (0 : Int) ≤ (Rect.mk 10 0 20 20).x
    ∧ (Rect.mk 10 0 20 20).x + (Rect.mk 10 0 20 20).width < (100 : Int)
    ∧ (0 : Int) ≤ (Rect.mk 10 0 20 20).y
    ∧ (Rect.mk 10 0 20 20).y + (Rect.mk 10 0 20 20).height < (100 : Int)
    ∧ clampBrect ⟨10, 0, 20, 20⟩ ⟨30, 10⟩ 100 100 = ⟨10, 10, 20, 20⟩
    ∧ clampBrect ⟨10, 0, 20, 20⟩ ⟨30, 10⟩ 100 100 ≠ ⟨10, 0, 20, 20⟩ := by
  decide

/-- C6 (amended): for every frame size `cols x rows`, every label height and every
rectangle of `int` values that is already in bounds (`0 ≤ x`, `x + width < cols`,
`0 ≤ y`, `y + height < rows`), with `y - labelHeight` not overflowing an `int`, the
label-placement clamping in `DrawData` returns the rectangle unchanged exactly when
the rectangle leaves room for the label above it, `labelHeight ≤ y`; otherwise it
moves the rectangle down to `y = labelHeight` and leaves `x`, `width` and `height`
as they are. -/
theorem clampBrect_in_bounds (brect : Rect) (labelSize : Size) (cols rows : Int)
    (hint : brect.fitsInt) (hcolsInt : fitsInt cols) (hrowsInt : fitsInt rows)
    (hsub : fitsInt (brect.y - labelSize.height))
    (hx0 : 0 ≤ brect.x) (hx : brect.x + brect.width < cols)
    (hy0 : 0 ≤ brect.y) (hy : brect.y + brect.height < rows) :
    clampBrect brect labelSize cols rows
        = (if labelSize.height ≤ brect.y then brect
           else { brect with y := labelSize.height })
    ∧ (clampBrect brect labelSize cols rows = brect ↔ labelSize.height ≤ brect.y) := by
  obtain ⟨⟨hx1, hx2⟩, ⟨hy1, hy2⟩, ⟨hw1, hw2⟩, ⟨hh1, hh2⟩⟩ := hint
  obtain ⟨hc1, hc2⟩ := hcolsInt
  obtain ⟨hr1, hr2⟩ := hrowsInt
  obtain ⟨hs1, hs2⟩ := hsub
  unfold INT_MIN at hx1 hy1 hw1 hh1 hc1 hr1 hs1
  unfold INT_MAX at hx2 hy2 hw2 hh2 hc2 hr2 hs2
  have hh : clampHorizontal brect cols = brect := by
    unfold clampHorizontal wrapInt
    rw [if_neg (by omega), if_neg (by omega)]
  have hv : clampVertical brect labelSize rows
      = (if labelSize.height ≤ brect.y then brect
         else { brect with y := labelSize.height }) := by
    unfold clampVertical wrapInt
    by_cases hle : labelSize.height ≤ brect.y
    · rw [if_neg (by omega), if_neg (by omega), if_pos hle]
    · rw [if_pos (by omega), if_neg hle]
      have hmin : min brect.height ((rows - 1 + 2147483648) % 4294967296 - 2147483648)
          = brect.height := by omega
      simp only [hmin]
  unfold clampBrect
  rw [hh, hv]
  refine ⟨rfl, ?_⟩
  constructor
  · intro heq
    by_contra hlt
    rw [if_neg hlt] at heq
    have hyy := congrArg Rect.y heq
    dsimp only at hyy
    omega
  · intro hle
    rw [if_pos hle]

/-- C6 (witness of the amended statement): a box at the top of a frame of
`100 x 100` pixels, without room for a label of height `10` above it, is moved down
to `y = 10`. -/
theorem clampBrect_in_bounds_witness :
    (Rect.mk 10 4 20 20).fitsInt ∧ fitsInt 100
    ∧ fitsInt ((Rect.mk 10 4 20 20).y - (Size.mk 30 10).height)
    ∧ ((0 : Int) ≤ (Rect.mk 10 4 20 20).x
      ∧ (Rect.mk 10 4 20 20).x + (Rect.mk 10 4 20 20).width < (100 : Int)
      ∧ (0 : Int) ≤ (Rect.mk 10 4 20 20).y
      ∧ (Rect.mk 10 4 20 20).y + (Rect.mk 10 4 20 20).height < (100 : Int))
    ∧ clampBrect ⟨10, 4, 20, 20⟩ ⟨30, 10⟩ 100 100
        = (if (Size.mk 30 10).height ≤ (Rect.mk 10 4 20 20).y then ⟨10, 4, 20, 20⟩
           else { (Rect.mk 10 4 20 20) with y := (Size.mk 30 10).height }) :=
  ⟨by decide, by decide, by decide, by decide,
   (clampBrect_in_bounds ⟨10, 4, 20, 20⟩ ⟨30, 10⟩ 100 100
      (by decide) (by decide) (by decide) (by decide)
      (by decide) (by decide) (by decide) (by decide)).1⟩

/-! ## The two ends of the weight range -/

/-- C7: when `DrawFilledRect` is called with `alpha = 0` no per-pixel blend is done:
the call is the direct fill `cv::rectangle(frame, rect, cl, cv::FILLED)`, and every
channel of every pixel of the frame inside the rectangle ends up equal to the fill
colour `c`, whatever its previous value `p` was. -/
theorem DrawFilledRect_alpha_zero_fill (frame : Mat) (rect : Rect) (cl : Scalar)
    (y x : Int) (i : Nat) (p c : Int) (h : ChannelAt frame rect cl y x i p c) :
    DrawFilledRect frame rect cl 0 = rectangle frame rect cl
    ∧ (DrawFilledRect frame rect cl 0).px y x i = c := by
  obtain ⟨hin, hcov, hi, _, _, _, _, hc, hc0, hc255⟩ := h
  refine ⟨by simp [DrawFilledRect], ?_⟩
  rw [DrawFilledRect_px_fill frame rect cl y x i hcov hin hi, hc]
  unfold saturate_cast_uchar
  rw [if_neg (by omega), if_neg (by omega)]

/-- C7 (witness): the value `100` under the fill
colour `200`. -/
theorem DrawFilledRect_alpha_zero_fill_witness :
    ChannelAt (constFrame 4 4 100) ⟨1, 1, 2, 2⟩ ⟨200, 200, 200, 0⟩ 1 2 2 100 200
    ∧ (DrawFilledRect (constFrame 4 4 100) ⟨1, 1, 2, 2⟩ ⟨200, 200, 200, 0⟩ 0).px 1 2 2 = 200 :=
  ⟨by decide,
   (DrawFilledRect_alpha_zero_fill (constFrame 4 4 100) ⟨1, 1, 2, 2⟩ ⟨200, 200, 200, 0⟩
      1 2 2 100 200 (by decide)).2⟩

/-- C8 (counterexample): with weight `0` over the value `0` and fill colour `255`,
`DrawFilledRect` leaves `255` in the pixel, not its previous value `0`. -/
theorem DrawFilledRect_alpha_zero_counterexample :
    ChannelAt (constFrame 4 4 0) ⟨1, 1, 2, 2⟩ ⟨255, 255, 255, 0⟩ 1 1 0 0 255
    ∧ (DrawFilledRect (constFrame 4 4 0) ⟨1, 1, 2, 2⟩ ⟨255, 255, 255, 0⟩ 0).px 1 1 0 = 255
    ∧ (DrawFilledRect (constFrame 4 4 0) ⟨1, 1, 2, 2⟩ ⟨255, 255, 255, 0⟩ 0).px 1 1 0
        ≠ (constFrame 4 4 0).px 1 1 0 := by
  decide

/-- C8 (amended): for weight `a = 0` the result of `DrawFilledRect` for a pixel inside
the rectangle is the fill colour, `r = c` for every `p` in `0..255` and every colour
`c`; it is the previous value only where that already equals the fill colour,
`r = p` exactly when `p = c`. -/
theorem DrawFilledRect_alpha_zero_keeps_iff (frame : Mat) (rect : Rect) (cl : Scalar)
    (y x : Int) (i : Nat) (p c : Int) (h : ChannelAt frame rect cl y x i p c) :
    (DrawFilledRect frame rect cl 0).px y x i = c
    ∧ ((DrawFilledRect frame rect cl 0).px y x i = p ↔ p = c) := by
  obtain ⟨hin, hcov, hi, _, _, _, _, hc, hc0, hc255⟩ := h
  have hr : (DrawFilledRect frame rect cl 0).px y x i = c := by
    rw [DrawFilledRect_px_fill frame rect cl y x i hcov hin hi, hc]
    unfold saturate_cast_uchar
    rw [if_neg (by omega), if_neg (by omega)]
  rw [hr]
  exact ⟨rfl, eq_comm⟩

/-- C8 (witness of the amended statement): the value `100` under the fill
colour `200`. -/
theorem DrawFilledRect_alpha_zero_keeps_iff_witness :
    ChannelAt (constFrame 4 4 100) ⟨1, 1, 2, 2⟩ ⟨200, 200, 200, 0⟩ 2 1 1 100 200
    ∧ (DrawFilledRect (constFrame 4 4 100) ⟨1, 1, 2, 2⟩ ⟨200, 200, 200, 0⟩ 0).px 2 1 1 = 200 :=
  ⟨by decide,
   (DrawFilledRect_alpha_zero_keeps_iff (constFrame 4 4 100) ⟨1, 1, 2, 2⟩
      ⟨200, 200, 200, 0⟩ 2 1 1 100 200 (by decide)).1⟩

/-- C9: for weight `a = 255` the result of `DrawFilledRect` for a pixel inside the
rectangle is the fill colour: for every `p` in `0..255` and every colour channel `c`
in `0..255`, `r = c` exactly. -/
theorem DrawFilledRect_alpha_255 (frame : Mat) (rect : Rect) (cl : Scalar)
    (y x : Int) (i : Nat) (p c : Int) (h : ChannelAt frame rect cl y x i p c) :
    (DrawFilledRect frame rect cl 255).px y x i = c := by
  obtain ⟨_, hcov, hi, hi3, hp, hp0, hp255, hc, hc0, hc255⟩ := h
  rw [DrawFilledRect_px_blend frame rect cl 255 (by decide) y x i hcov hi hi3, hp, hc,
    blendValue_eq_ediv 255 p c (by decide) (by decide) hp0 hp255 hc0 hc255]
  omega

/-- C9 (witness): the value `100` under the fill colour
`200`. -/
theorem DrawFilledRect_alpha_255_witness :
    ChannelAt (constFrame 4 4 100) ⟨1, 1, 2, 2⟩ ⟨200, 200, 200, 0⟩ 2 2 0 100 200
    ∧ (DrawFilledRect (constFrame 4 4 100) ⟨1, 1, 2, 2⟩ ⟨200, 200, 200, 0⟩ 255).px 2 2 0
        = 200 :=
  ⟨by decide,
   DrawFilledRect_alpha_255 (constFrame 4 4 100) ⟨1, 1, 2, 2⟩ ⟨200, 200, 200, 0⟩
      2 2 0 100 200 (by decide)⟩

/-- C10 (counterexample): with `alpha = 255` over the value `0` and fill colour `255`,
`DrawFilledRect` leaves `255` in the pixel; the pixel is not unchanged, and the value
is not the blend with the weights exchanged, `(alpha * p + (255 - alpha) * c) / 255`,
which is `0`. -/
theorem DrawFilledRect_background_weight_counterexample :
    ChannelAt (constFrame 4 4 0) ⟨1, 1, 2, 2⟩ ⟨255, 255, 255, 0⟩ 1 1 0 0 255
    ∧ (DrawFilledRect (constFrame 4 4 0) ⟨1, 1, 2, 2⟩ ⟨255, 255, 255, 0⟩ 255).px 1 1 0 = 255
    ∧ (DrawFilledRect (constFrame 4 4 0) ⟨1, 1, 2, 2⟩ ⟨255, 255, 255, 0⟩ 255).px 1 1 0
        ≠ (constFrame 4 4 0).px 1 1 0
    ∧ (DrawFilledRect (constFrame 4 4 0) ⟨1, 1, 2, 2⟩ ⟨255, 255, 255, 0⟩ 255).px 1 1 0
        ≠ saturate_cast_uchar (Int.tdiv (255 * 0 + (255 - 255) * 255) 255) := by
  decide

/-- C10 (amended): in `DrawFilledRect` a non-zero `alpha` is the weight of the fill
colour, not of the existing pixel: the existing value `p` is multiplied by
`255 - alpha` and the fill colour `c` by `alpha`, so that `alpha = 255` is fully
solid and replaces every pixel of the rectangle by the fill colour (`r = c` for
every `p` and `c`). -/
theorem DrawFilledRect_colour_weight (frame : Mat) (rect : Rect) (cl : Scalar) (alpha : Int)
    (y x : Int) (i : Nat) (p c : Int) (h : ChannelAt frame rect cl y x i p c)
    (ha1 : 1 ≤ alpha) (_ha : alpha ≤ 255) :
    (DrawFilledRect frame rect cl alpha).px y x i
        = saturate_cast_uchar (Int.tdiv ((255 - alpha) * p + alpha * c) 255)
    ∧ (DrawFilledRect frame rect cl 255).px y x i = c := by
  obtain ⟨_, hcov, hi, hi3, hp, hp0, hp255, hc, hc0, hc255⟩ := h
  have hr : (DrawFilledRect frame rect cl alpha).px y x i
      = saturate_cast_uchar (Int.tdiv ((255 - alpha) * p + alpha * c) 255) := by
    rw [DrawFilledRect_px_blend frame rect cl alpha (by omega) y x i hcov hi hi3, hp, hc]
    rfl
  refine ⟨hr, ?_⟩
  rw [DrawFilledRect_px_blend frame rect cl 255 (by decide) y x i hcov hi hi3, hp, hc,
    blendValue_eq_ediv 255 p c (by decide) (by decide) hp0 hp255 hc0 hc255]
  omega

/-- C10 (witness of the amended statement): weight `150` over the value `100` with
fill colour `200`. -/
theorem DrawFilledRect_colour_weight_witness :
    ChannelAt (constFrame 4 4 100) ⟨1, 1, 2, 2⟩ ⟨200, 200, 200, 0⟩ 1 2 1 100 200
    ∧ (1 : Int) ≤ 150 ∧ (150 : Int) ≤ 255
    ∧ (DrawFilledRect (constFrame 4 4 100) ⟨1, 1, 2, 2⟩ ⟨200, 200, 200, 0⟩ 150).px 1 2 1
        = saturate_cast_uchar (Int.tdiv ((255 - 150) * 100 + 150 * 200) 255) :=
  ⟨by decide, by decide, by decide,
   (DrawFilledRect_colour_weight (constFrame 4 4 100) ⟨1, 1, 2, 2⟩ ⟨200, 200, 200, 0⟩ 150
      1 2 1 100 200 (by decide) (by decide) (by decide)).1⟩

/-! ## The rounding `cvRound` -/

/-- The rounded value is the floor or its successor. -/
theorem cvRound_floor_bounds (x : ℚ) : ⌊x⌋ ≤ cvRound x ∧ cvRound x ≤ ⌊x⌋ + 1 := by
  unfold cvRound
  split_ifs <;> constructor <;> omega

/-- The rounded value is an integer nearest to the argument. -/
theorem cvRound_nearest (x : ℚ) : |((cvRound x : Int) : ℚ) - x| ≤ 1 / 2 := by
  have h1 : ((⌊x⌋ : Int) : ℚ) ≤ x := Int.floor_le x
  have h2 : x < ((⌊x⌋ : Int) : ℚ) + 1 := Int.lt_floor_add_one x
  rw [abs_le]
  unfold cvRound
  split_ifs with ha hb hc <;> push_cast <;> constructor <;> linarith

/-- The rounding is monotone. -/
theorem cvRound_mono {x y : ℚ} (hxy : x ≤ y) : cvRound x ≤ cvRound y := by
  have hfl : ⌊x⌋ ≤ ⌊y⌋ := Int.floor_le_floor hxy
  by_cases hlt : ⌊x⌋ < ⌊y⌋
  · have h1 := (cvRound_floor_bounds x).2
    have h2 := (cvRound_floor_bounds y).1
    omega
  · have heq : ⌊x⌋ = ⌊y⌋ := by omega
    unfold cvRound
    rw [heq]
    split_ifs <;> first | omega | (exfalso; linarith)

/-- An integer rounds to itself. -/
theorem cvRound_intCast (n : Int) : cvRound (n : ℚ) = n := by
  unfold cvRound
  rw [Int.floor_intCast]
  simp

/-- A value that is not negative rounds to a value that is not negative. -/
theorem cvRound_nonneg {x : ℚ} (hx : 0 ≤ x) : 0 ≤ cvRound x := by
  have h := cvRound_mono hx
  have h0 : cvRound (0 : ℚ) = 0 := by
    have := cvRound_intCast 0
    simpa using this
  rw [h0] at h
  exact h

/-! ## Rounding to a floating-point format -/

/-- The rounding of a positive value with binary exponent `e`. -/
theorem roundToFormat_of_exponent (fmt : FloatFormat) {x : ℚ} (hx : 0 < x) (e : Int)
    (hlo : (2 : ℚ) ^ e ≤ x) (hhi : x < (2 : ℚ) ^ (e + 1)) :
    roundToFormat fmt x
      = (cvRound (x / (2 : ℚ) ^ (e - (fmt.fractionBits : Int))) : ℚ)
          * (2 : ℚ) ^ (e - (fmt.fractionBits : Int)) := by
  have he : Int.log 2 x = e := by
    have h1 : e ≤ Int.log 2 x :=
      (Int.zpow_le_iff_le_log (by norm_num) hx).1 (by exact_mod_cast hlo)
    have h2 : Int.log 2 x < e + 1 :=
      (Int.lt_zpow_iff_log_lt (by norm_num) hx).1 (by exact_mod_cast hhi)
    omega
  unfold roundToFormat
  rw [if_neg (ne_of_gt hx), abs_of_pos hx, he]

/-- The binary exponent of a positive value brackets it. -/
theorem exponent_brackets {x : ℚ} (hx : 0 < x) :
    (2 : ℚ) ^ Int.log 2 x ≤ x ∧ x < (2 : ℚ) ^ (Int.log 2 x + 1) := by
  constructor
  · exact_mod_cast Int.zpow_log_le_self (b := 2) (by norm_num) hx
  · exact_mod_cast Int.lt_zpow_succ_log_self (b := 2) (by norm_num) x

/-- The scaled significand of a value with exponent `e` lies between `2 ^ p` and
`2 ^ (p + 1)`. -/
theorem scaled_bounds (p : Nat) {x : ℚ} (e : Int)
    (hlo : (2 : ℚ) ^ e ≤ x) (hhi : x < (2 : ℚ) ^ (e + 1)) :
    ((2 ^ p : Int) : ℚ) ≤ x / (2 : ℚ) ^ (e - (p : Int))
    ∧ x / (2 : ℚ) ^ (e - (p : Int)) ≤ ((2 ^ (p + 1) : Int) : ℚ) := by
  have hq : (0 : ℚ) < (2 : ℚ) ^ (e - (p : Int)) := zpow_pos (by norm_num) _
  have h1 : (2 : ℚ) ^ e = (2 : ℚ) ^ (p : Int) * (2 : ℚ) ^ (e - (p : Int)) := by
    rw [← zpow_add₀ (by norm_num : (2 : ℚ) ≠ 0)]
    congr 1
    omega
  have h2 : (2 : ℚ) ^ (e + 1) = (2 : ℚ) ^ ((p : Int) + 1) * (2 : ℚ) ^ (e - (p : Int)) := by
    rw [← zpow_add₀ (by norm_num : (2 : ℚ) ≠ 0)]
    congr 1
    omega
  push_cast
  constructor
  · rw [le_div_iff₀ hq, ← zpow_natCast, ← h1]
    exact hlo
  · rw [div_le_iff₀ hq]
    have : (2 : ℚ) ^ (p + 1) = (2 : ℚ) ^ ((p : Int) + 1) := by
      rw [← zpow_natCast]
      push_cast
      rfl
    rw [this, ← h2]
    exact le_of_lt hhi

/-- The rounded value of a positive value stays within the binade of the value. -/
theorem roundToFormat_binade (fmt : FloatFormat) {x : ℚ} (hx : 0 < x) :
    (2 : ℚ) ^ Int.log 2 x ≤ roundToFormat fmt x
    ∧ roundToFormat fmt x ≤ (2 : ℚ) ^ (Int.log 2 x + 1) := by
  obtain ⟨hlo, hhi⟩ := exponent_brackets hx
  obtain ⟨hs1, hs2⟩ := scaled_bounds fmt.fractionBits (Int.log 2 x) hlo hhi
  rw [roundToFormat_of_exponent fmt hx _ hlo hhi]
  set q : ℚ := (2 : ℚ) ^ (Int.log 2 x - (fmt.fractionBits : Int)) with hqdef
  have hq : (0 : ℚ) < q := zpow_pos (by norm_num) _
  have hc1 : (2 ^ fmt.fractionBits : Int) ≤ cvRound (x / q) := by
    have := cvRound_mono hs1
    rwa [cvRound_intCast] at this
  have hc2 : cvRound (x / q) ≤ (2 ^ (fmt.fractionBits + 1) : Int) := by
    have := cvRound_mono hs2
    rwa [cvRound_intCast] at this
  have h1 : (2 : ℚ) ^ Int.log 2 x = (2 : ℚ) ^ fmt.fractionBits * q := by
    rw [hqdef, ← zpow_natCast, ← zpow_add₀ (by norm_num : (2 : ℚ) ≠ 0)]
    congr 1
    omega
  have h2 : (2 : ℚ) ^ (Int.log 2 x + 1) = (2 : ℚ) ^ (fmt.fractionBits + 1) * q := by
    rw [hqdef, ← zpow_natCast, ← zpow_add₀ (by norm_num : (2 : ℚ) ≠ 0)]
    congr 1
    push_cast
    omega
  have hc1q : (2 : ℚ) ^ fmt.fractionBits ≤ ((cvRound (x / q) : Int) : ℚ) := by
    have : ((2 ^ fmt.fractionBits : Int) : ℚ) ≤ ((cvRound (x / q) : Int) : ℚ) :=
      Int.cast_le.2 hc1
    exact_mod_cast this
  have hc2q : ((cvRound (x / q) : Int) : ℚ) ≤ (2 : ℚ) ^ (fmt.fractionBits + 1) := by
    have : ((cvRound (x / q) : Int) : ℚ) ≤ ((2 ^ (fmt.fractionBits + 1) : Int) : ℚ) :=
      Int.cast_le.2 hc2
    exact_mod_cast this
  rw [h1, h2]
  exact ⟨mul_le_mul_of_nonneg_right hc1q hq.le, mul_le_mul_of_nonneg_right hc2q hq.le⟩

/-- Rounding keeps a value that is not negative from becoming negative. -/
theorem roundToFormat_nonneg (fmt : FloatFormat) {x : ℚ} (hx : 0 ≤ x) :
    0 ≤ roundToFormat fmt x := by
  rcases eq_or_lt_of_le hx with h0 | hpos
  · rw [← h0]
    simp [roundToFormat]
  · exact le_trans (zpow_pos (by norm_num) _).le (roundToFormat_binade fmt hpos).1

/-- Rounding to a format is monotone on the values that are not negative. -/
theorem roundToFormat_mono (fmt : FloatFormat) {x y : ℚ} (hx : 0 ≤ x) (hxy : x ≤ y) :
    roundToFormat fmt x ≤ roundToFormat fmt y := by
  rcases eq_or_lt_of_le hx with h0 | hpos
  · rw [← h0]
    have : roundToFormat fmt 0 = 0 := by simp [roundToFormat]
    rw [this]
    exact roundToFormat_nonneg fmt (le_trans hx hxy)
  · have hy : 0 < y := lt_of_lt_of_le hpos hxy
    have hlog : Int.log 2 x ≤ Int.log 2 y := Int.log_mono_right hpos hxy
    by_cases hlt : Int.log 2 x < Int.log 2 y
    · have h1 := (roundToFormat_binade fmt hpos).2
      have h2 := (roundToFormat_binade fmt hy).1
      have h3 : (2 : ℚ) ^ (Int.log 2 x + 1) ≤ (2 : ℚ) ^ Int.log 2 y :=
        zpow_le_zpow_right₀ (by norm_num) (by omega)
      linarith
    · have heq : Int.log 2 x = Int.log 2 y := by omega
      obtain ⟨hxlo, hxhi⟩ := exponent_brackets hpos
      obtain ⟨hylo, hyhi⟩ := exponent_brackets hy
      rw [roundToFormat_of_exponent fmt hpos _ hxlo hxhi,
        roundToFormat_of_exponent fmt hy _ hylo hyhi, heq]
      have hq : (0 : ℚ) < (2 : ℚ) ^ (Int.log 2 y - (fmt.fractionBits : Int)) :=
        zpow_pos (by norm_num) _
      apply mul_le_mul_of_nonneg_right _ hq.le
      exact Int.cast_le.2 (cvRound_mono (div_le_div_of_nonneg_right hxy hq.le))

/-- The rounding error of a positive value is at most half a unit in the last place,
hence at most the value times `2 ^ -(p + 1)`. -/
theorem roundToFormat_error (fmt : FloatFormat) {x : ℚ} (hx : 0 ≤ x) :
    |roundToFormat fmt x - x| ≤ x / (2 : ℚ) ^ (fmt.fractionBits + 1) := by
  rcases eq_or_lt_of_le hx with h0 | hpos
  · rw [← h0]
    simp [roundToFormat]
  · obtain ⟨hlo, hhi⟩ := exponent_brackets hpos
    rw [roundToFormat_of_exponent fmt hpos _ hlo hhi]
    set q : ℚ := (2 : ℚ) ^ (Int.log 2 x - (fmt.fractionBits : Int)) with hqdef
    have hq : 0 < q := zpow_pos (by norm_num) _
    have hnear := cvRound_nearest (x / q)
    have hscale : q * (2 : ℚ) ^ fmt.fractionBits ≤ x := by
      have : q * (2 : ℚ) ^ fmt.fractionBits = (2 : ℚ) ^ Int.log 2 x := by
        rw [hqdef, ← zpow_natCast, ← zpow_add₀ (by norm_num : (2 : ℚ) ≠ 0)]
        congr 1
        omega
      rw [this]
      exact hlo
    have h1 : ((cvRound (x / q) : Int) : ℚ) * q - x
        = (((cvRound (x / q) : Int) : ℚ) - x / q) * q := by
      field_simp
    rw [h1, abs_mul, abs_of_pos hq]
    have h2 : |((cvRound (x / q) : Int) : ℚ) - x / q| * q ≤ 1 / 2 * q :=
      mul_le_mul_of_nonneg_right hnear hq.le
    have h3 : 1 / 2 * q ≤ x / (2 : ℚ) ^ (fmt.fractionBits + 1) := by
      rw [le_div_iff₀ (by positivity)]
      rw [pow_succ]
      nlinarith
    linarith

/-- A positive integer below `2 ^ 24` is a value of both formats. -/
theorem roundToFormat_intCast (fmt : FloatFormat) (n : Int) (h0 : 0 < n) (hn : n < 2 ^ 24) :
    roundToFormat fmt (n : ℚ) = n := by
  have hx : (0 : ℚ) < (n : ℚ) := by exact_mod_cast h0
  obtain ⟨hlo, hhi⟩ := exponent_brackets hx
  have hp : 23 ≤ fmt.fractionBits := by cases fmt <;> simp [FloatFormat.fractionBits]
  have he : Int.log 2 (n : ℚ) ≤ (fmt.fractionBits : Int) := by
    have h24 : (n : ℚ) < ((2 : ℕ) : ℚ) ^ (24 : Int) := by
      have : (n : ℚ) < ((2 ^ 24 : Int) : ℚ) := Int.cast_lt.2 hn
      norm_num at this ⊢
      exact this
    have := (Int.lt_zpow_iff_log_lt (b := 2) (by norm_num) hx).1 h24
    omega
  rw [roundToFormat_of_exponent fmt hx _ hlo hhi]
  obtain ⟨k, hk⟩ : ∃ k : Nat, Int.log 2 (n : ℚ) - (fmt.fractionBits : Int) = -(k : Int) :=
    ⟨((fmt.fractionBits : Int) - Int.log 2 (n : ℚ)).toNat, by omega⟩
  rw [hk, zpow_neg, zpow_natCast, div_inv_eq_mul]
  have hcast : (n : ℚ) * (2 : ℚ) ^ k = ((n * 2 ^ k : Int) : ℚ) := by push_cast; ring
  rw [hcast, cvRound_intCast]
  push_cast
  field_simp

/-! ## The time constants of the tracker settings -/

/-- The small integers the set-up converts to the format of `m_fps` are values of
the format. -/
theorem roundToFormat_small (fmt : FloatFormat) :
    roundToFormat fmt 2 = 2 ∧ roundToFormat fmt 5 = 5 ∧ roundToFormat fmt 125 = 125 := by
  have h2 := roundToFormat_intCast fmt 2 (by norm_num) (by norm_num)
  have h5 := roundToFormat_intCast fmt 5 (by norm_num) (by norm_num)
  have h125 := roundToFormat_intCast fmt 125 (by norm_num) (by norm_num)
  refine ⟨?_, ?_, ?_⟩
  · exact_mod_cast h2
  · exact_mod_cast h5
  · exact_mod_cast h125

/-- The two time constants `MotionDetectorExample::InitTracker` sets. -/
theorem MotionDetectorExample.InitTracker_constants (self : MotionDetectorExample)
    (fmt : FloatFormat) (settings : TrackerSettings) :
    (self.InitTracker fmt settings).m_maximumAllowedSkippedFrames
        = cvRound (roundToFormat fmt
            (roundToFormat fmt (self.m_minStaticTime : ℚ) * self.m_fps))
    ∧ (self.InitTracker fmt settings).m_maxTraceLength
        = 2 * cvRound (roundToFormat fmt
            (roundToFormat fmt (self.m_minStaticTime : ℚ) * self.m_fps)) := by
  constructor <;> rfl

/-- The single precision value nearest to `29.9` is `15676211 / 524288`, and five
times it rounds to `149.5` in single precision. -/
theorem roundToFormat_sample :
    roundToFormat FloatFormat.binary32 (299 / 10) = 15676211 / 524288
    ∧ roundToFormat FloatFormat.binary32 (5 * (15676211 / 524288)) = 299 / 2 := by
  constructor
  · rw [roundToFormat_of_exponent FloatFormat.binary32 (by norm_num) 4 (by norm_num)
      (by norm_num)]
    norm_num [FloatFormat.fractionBits, cvRound]
  · rw [roundToFormat_of_exponent FloatFormat.binary32 (by norm_num) 7 (by norm_num)
      (by norm_num)]
    norm_num [FloatFormat.fractionBits, cvRound]

/-- C11 (counterexample): the motion example at the single precision frame rate
nearest to `29.9`, `m_fps = 15676211 / 524288`. The exact product `5 * m_fps` is
`149.49999809...`, whose nearest integer is `149`; the program rounds the product to
single precision, `149.5`, and `cvRound` gives `150`, which is further than `1 / 2`
from the exact product. -/
theorem InitTracker_float_product_counterexample :
    (0 : ℚ) ≤ (MotionDetectorExample.new (15676211 / 524288)).m_fps
    ∧ roundToFormat FloatFormat.binary32 (299 / 10) = 15676211 / 524288
    ∧ ((MotionDetectorExample.new (15676211 / 524288)).InitTracker FloatFormat.binary32
          defaultSettings).m_maximumAllowedSkippedFrames = 150
    ∧ round (((MotionDetectorExample.new (15676211 / 524288)).m_minStaticTime : ℚ)
          * (MotionDetectorExample.new (15676211 / 524288)).m_fps) = 149
    ∧ ¬ (|((((MotionDetectorExample.new (15676211 / 524288)).InitTracker
              FloatFormat.binary32 defaultSettings).m_maximumAllowedSkippedFrames : Int) : ℚ)
            - ((MotionDetectorExample.new (15676211 / 524288)).m_minStaticTime : ℚ)
                * (MotionDetectorExample.new (15676211 / 524288)).m_fps| ≤ 1 / 2) := by
  have hskip : ((MotionDetectorExample.new (15676211 / 524288)).InitTracker
      FloatFormat.binary32 defaultSettings).m_maximumAllowedSkippedFrames = 150 := by
    rw [(MotionDetectorExample.InitTracker_constants _ _ _).1]
    show cvRound (roundToFormat FloatFormat.binary32
      (roundToFormat FloatFormat.binary32 ((5 : Int) : ℚ) * (15676211 / 524288))) = 150
    have h5 : roundToFormat FloatFormat.binary32 ((5 : Int) : ℚ) = 5 := by
      have := (roundToFormat_small FloatFormat.binary32).2.1
      exact_mod_cast this
    rw [h5, roundToFormat_sample.2]
    norm_num [cvRound]
  refine ⟨by norm_num [MotionDetectorExample.new], roundToFormat_sample.1, hskip, ?_, ?_⟩
  · show round (((5 : Int) : ℚ) * (15676211 / 524288)) = 149
    rw [round_eq, Int.floor_eq_iff]
    norm_num
  · rw [hskip]
    show ¬ (|(((150 : Int) : ℚ)) - ((5 : Int) : ℚ) * (15676211 / 524288)| ≤ 1 / 2)
    rw [abs_le]
    norm_num

/-- C11 (amended): in `MotionDetectorExample::InitTracker` (abandoned-object detection
enabled), for every frame rate `fps ≥ 0` and every `minStaticTime` for which the
rounded value fits an `int`, the settings built satisfy
`maxAllowedSkippedFrames = round(P)`, an integer nearest to `P`, where `P` is the
product `minStaticTime * fps` as the program forms it, rounded to the floating-point
format of `m_fps`, and `maxTraceLength = 2 * maxAllowedSkippedFrames`. With
`minStaticTime = 5` the value is within `1 / 2 + 5 * fps / 2 ^ (p + 1)` of the exact
product, `p` the number of fraction bits of the format; `fps = 25` and
`minStaticTime = 5` give `125` and `250`. -/
theorem InitTracker_abandoned_constants (fmt : FloatFormat) (self : MotionDetectorExample)
    (settings : TrackerSettings) (hfps : 0 ≤ self.m_fps)
    (_hfit : fitsInt (cvRound (roundToFormat fmt
      (roundToFormat fmt (self.m_minStaticTime : ℚ) * self.m_fps)))) :
    (self.InitTracker fmt settings).m_useAbandonedDetection = true
    ∧ (self.InitTracker fmt settings).m_maximumAllowedSkippedFrames
        = cvRound (roundToFormat fmt
            (roundToFormat fmt (self.m_minStaticTime : ℚ) * self.m_fps))
    ∧ |(((self.InitTracker fmt settings).m_maximumAllowedSkippedFrames : Int) : ℚ)
          - roundToFormat fmt (roundToFormat fmt (self.m_minStaticTime : ℚ) * self.m_fps)|
        ≤ 1 / 2
    ∧ (self.InitTracker fmt settings).m_maxTraceLength
        = 2 * (self.InitTracker fmt settings).m_maximumAllowedSkippedFrames
    ∧ (self.m_minStaticTime = 5 →
        |(((self.InitTracker fmt settings).m_maximumAllowedSkippedFrames : Int) : ℚ)
            - 5 * self.m_fps|
          ≤ 1 / 2 + 5 * self.m_fps / (2 : ℚ) ^ (fmt.fractionBits + 1))
    ∧ (MotionDetectorExample.InitTracker { self with m_fps := 25, m_minStaticTime := 5 } fmt
          settings).m_maximumAllowedSkippedFrames = 125
    ∧ (MotionDetectorExample.InitTracker { self with m_fps := 25, m_minStaticTime := 5 } fmt
          settings).m_maxTraceLength = 250 := by
  obtain ⟨h1, h2⟩ := MotionDetectorExample.InitTracker_constants self fmt settings
  obtain ⟨h3, h4⟩ := MotionDetectorExample.InitTracker_constants
    { self with m_fps := 25, m_minStaticTime := 5 } fmt settings
  obtain ⟨-, hfive, h125⟩ := roundToFormat_small fmt
  have hfive1 : roundToFormat fmt ((5 : Int) : ℚ) = 5 := by exact_mod_cast hfive
  have hval : cvRound (roundToFormat fmt (roundToFormat fmt ((5 : Int) : ℚ) * 25)) = 125 := by
    rw [hfive1]
    have h : (5 : ℚ) * 25 = 125 := by norm_num
    rw [h, h125]
    have := cvRound_intCast 125
    exact_mod_cast this
  refine ⟨rfl, h1, ?_, ?_, ?_, ?_, ?_⟩
  · rw [h1]
    exact cvRound_nearest _
  · rw [h2, h1]
  · intro hstatic
    rw [h1, hstatic, hfive1]
    have hprod : (0 : ℚ) ≤ 5 * self.m_fps := by linarith
    have hnear := cvRound_nearest (roundToFormat fmt (5 * self.m_fps))
    have herr := roundToFormat_error fmt hprod
    rw [abs_le] at hnear herr ⊢
    constructor <;> linarith [hnear.1, hnear.2, herr.1, herr.2]
  · rw [h3]
    exact hval
  · rw [h4]
    show 2 * cvRound (roundToFormat fmt (roundToFormat fmt ((5 : Int) : ℚ) * 25)) = 250
    rw [hval]
    rfl

/-- The motion example as constructed, at `30` frames per second: the rounded
product is `150` in either format. -/
theorem InitTracker_sample_value (fmt : FloatFormat) :
    cvRound (roundToFormat fmt
      (roundToFormat fmt ((MotionDetectorExample.new 30).m_minStaticTime : ℚ)
        * (MotionDetectorExample.new 30).m_fps)) = 150 := by
  show cvRound (roundToFormat fmt (roundToFormat fmt ((5 : Int) : ℚ) * 30)) = 150
  have hfive : roundToFormat fmt ((5 : Int) : ℚ) = 5 := by
    exact_mod_cast (roundToFormat_small fmt).2.1
  have h150 : roundToFormat fmt (150 : ℚ) = 150 := by
    exact_mod_cast roundToFormat_intCast fmt 150 (by norm_num) (by norm_num)
  have h : (5 : ℚ) * 30 = 150 := by norm_num
  rw [hfive, h, h150]
  exact_mod_cast cvRound_intCast 150

/-- C11 (witness of the amended statement): the motion example as constructed, at
`30` frames per second in single precision, gets `150` and `300`, and `150` is
within `1 / 2 + 150 / 2 ^ 24` of the exact product. -/
theorem InitTracker_abandoned_constants_witness :
    (0 : ℚ) ≤ (MotionDetectorExample.new 30).m_fps
    ∧ fitsInt (cvRound (roundToFormat FloatFormat.binary32
        (roundToFormat FloatFormat.binary32
          ((MotionDetectorExample.new 30).m_minStaticTime : ℚ)
          * (MotionDetectorExample.new 30).m_fps)))
    ∧ ((MotionDetectorExample.new 30).InitTracker FloatFormat.binary32
          defaultSettings).m_maxTraceLength
        = 2 * ((MotionDetectorExample.new 30).InitTracker FloatFormat.binary32
            defaultSettings).m_maximumAllowedSkippedFrames
    ∧ |((((MotionDetectorExample.new 30).InitTracker FloatFormat.binary32
            defaultSettings).m_maximumAllowedSkippedFrames : Int) : ℚ)
          - 5 * (MotionDetectorExample.new 30).m_fps|
        ≤ 1 / 2 + 5 * (MotionDetectorExample.new 30).m_fps
            / (2 : ℚ) ^ (FloatFormat.binary32.fractionBits + 1) :=
  ⟨by simp [MotionDetectorExample.new],
   by rw [InitTracker_sample_value]; decide,
   (InitTracker_abandoned_constants FloatFormat.binary32 (MotionDetectorExample.new 30)
      defaultSettings (by simp [MotionDetectorExample.new])
      (by rw [InitTracker_sample_value]; decide)).2.2.2.1,
   (InitTracker_abandoned_constants FloatFormat.binary32 (MotionDetectorExample.new 30)
      defaultSettings (by simp [MotionDetectorExample.new])
      (by rw [InitTracker_sample_value]; decide)).2.2.2.2.1 rfl⟩

/-- C17: for every frame rate `fps ≥ 0`, the tracker settings built by the
`InitTracker` of every example satisfy
`0 ≤ maxAllowedSkippedFrames ≤ maxTraceLength`, in either floating-point format of
`m_fps`. The motion example is taken with `m_minStaticTime = 5`, the value its
member initialiser gives it. -/
theorem InitTracker_skipped_le_trace (fmt : FloatFormat) (fps : ℚ) (hfps : 0 ≤ fps)
    (minObjWidth : Int) (frame : UMat) (settings : TrackerSettings) :
    (0 ≤ (MotionDetectorExample.InitTracker ⟨fps, minObjWidth, 5⟩ fmt
            settings).m_maximumAllowedSkippedFrames
      ∧ (MotionDetectorExample.InitTracker ⟨fps, minObjWidth, 5⟩ fmt
            settings).m_maximumAllowedSkippedFrames
          ≤ (MotionDetectorExample.InitTracker ⟨fps, minObjWidth, 5⟩ fmt
              settings).m_maxTraceLength)
    ∧ (0 ≤ (FaceDetectorExample.InitTracker fmt fps frame
            settings).m_maximumAllowedSkippedFrames
      ∧ (FaceDetectorExample.InitTracker fmt fps frame settings).m_maximumAllowedSkippedFrames
          ≤ (FaceDetectorExample.InitTracker fmt fps frame settings).m_maxTraceLength)
    ∧ (0 ≤ (PedestrianDetectorExample.InitTracker fmt fps frame
            settings).m_maximumAllowedSkippedFrames
      ∧ (PedestrianDetectorExample.InitTracker fmt fps frame
            settings).m_maximumAllowedSkippedFrames
          ≤ (PedestrianDetectorExample.InitTracker fmt fps frame settings).m_maxTraceLength)
    ∧ (0 ≤ (OpenCVDNNExample.InitTracker fmt fps settings).m_maximumAllowedSkippedFrames
      ∧ (OpenCVDNNExample.InitTracker fmt fps settings).m_maximumAllowedSkippedFrames
          ≤ (OpenCVDNNExample.InitTracker fmt fps settings).m_maxTraceLength)
    ∧ (0 ≤ (YoloDarknetExample.InitTracker fmt fps settings).m_maximumAllowedSkippedFrames
      ∧ (YoloDarknetExample.InitTracker fmt fps settings).m_maximumAllowedSkippedFrames
          ≤ (YoloDarknetExample.InitTracker fmt fps settings).m_maxTraceLength)
    ∧ (0 ≤ (YoloTensorRTExample.InitTracker fmt fps frame
            settings).m_maximumAllowedSkippedFrames
      ∧ (YoloTensorRTExample.InitTracker fmt fps frame
            settings).m_maximumAllowedSkippedFrames
          ≤ (YoloTensorRTExample.InitTracker fmt fps frame settings).m_maxTraceLength) := by
  obtain ⟨h2, h5, -⟩ := roundToFormat_small fmt
  have h5i : roundToFormat fmt ((5 : Int) : ℚ) = 5 := by exact_mod_cast h5
  have hfive : 0 ≤ cvRound (roundToFormat fmt (roundToFormat fmt ((5 : Int) : ℚ) * fps)) := by
    rw [h5i]
    exact cvRound_nonneg (roundToFormat_nonneg fmt (by linarith))
  have hhalf : 0 ≤ cvRound (roundToFormat fmt (fps / roundToFormat fmt 2)) := by
    rw [h2]
    exact cvRound_nonneg (roundToFormat_nonneg fmt (by linarith))
  have hone : 0 ≤ cvRound fps := cvRound_nonneg hfps
  have htwo : 0 ≤ cvRound (roundToFormat fmt (roundToFormat fmt 2 * fps)) := by
    rw [h2]
    exact cvRound_nonneg (roundToFormat_nonneg fmt (by linarith))
  have hhalf5 : cvRound (roundToFormat fmt (fps / roundToFormat fmt 2))
      ≤ cvRound (roundToFormat fmt (roundToFormat fmt 5 * fps)) := by
    rw [h2, h5]
    exact cvRound_mono (roundToFormat_mono fmt (by linarith) (by linarith))
  have hone5 : cvRound fps ≤ cvRound (roundToFormat fmt (roundToFormat fmt 5 * fps)) := by
    rw [h5]
    apply cvRound_mono
    have herr := roundToFormat_error fmt (show (0 : ℚ) ≤ 5 * fps by linarith)
    have hpow : (5 : ℚ) * fps / (2 : ℚ) ^ (fmt.fractionBits + 1) ≤ 5 * fps / 2 := by
      apply div_le_div_of_nonneg_left (by linarith) (by norm_num)
      calc (2 : ℚ) = 2 ^ 1 := by norm_num
        _ ≤ 2 ^ (fmt.fractionBits + 1) :=
            pow_le_pow_right₀ (by norm_num) (by omega)
    rw [abs_le] at herr
    linarith [herr.1]
  have htwo5 : cvRound (roundToFormat fmt (roundToFormat fmt 2 * fps))
      ≤ cvRound (roundToFormat fmt (roundToFormat fmt 5 * fps)) := by
    rw [h2, h5]
    exact cvRound_mono (roundToFormat_mono fmt (by linarith) (by linarith))
  obtain ⟨hm1, hm2⟩ :=
    MotionDetectorExample.InitTracker_constants ⟨fps, minObjWidth, 5⟩ fmt settings
  refine ⟨⟨?_, ?_⟩, ⟨hhalf, hhalf5⟩, ⟨hone, hone5⟩, ⟨htwo, le_refl _⟩, ⟨htwo, le_refl _⟩,
    ⟨htwo, htwo5⟩⟩
  · rw [hm1]
    exact hfive
  · rw [hm1, hm2]
    show cvRound (roundToFormat fmt (roundToFormat fmt ((5 : Int) : ℚ) * fps))
      ≤ 2 * cvRound (roundToFormat fmt (roundToFormat fmt ((5 : Int) : ℚ) * fps))
    omega

/-- C17 (witness): `25` frames per second in single precision, a frame of
`640 x 480` pixels. -/
theorem InitTracker_skipped_le_trace_witness :
    (0 : ℚ) ≤ 25
    ∧ (FaceDetectorExample.InitTracker FloatFormat.binary32 25 ⟨640, 480⟩
          defaultSettings).m_maximumAllowedSkippedFrames
        ≤ (FaceDetectorExample.InitTracker FloatFormat.binary32 25 ⟨640, 480⟩
            defaultSettings).m_maxTraceLength :=
  ⟨by norm_num,
   (InitTracker_skipped_le_trace FloatFormat.binary32 25 (by norm_num) 10 ⟨640, 480⟩
      defaultSettings).2.1.2⟩

/-! ## The two rendering paths of the motion example -/

/-- A loop that appends calls track by track collects the calls of all tracks. -/
theorem foldl_append_calls (g : Track → List DrawCmd) (tracks : List Track)
    (out : List DrawCmd) :
    tracks.foldl (fun (acc : List DrawCmd) (track : Track) => acc ++ g track) out
      = out ++ tracks.flatMap g := by
  induction tracks generalizing out with
  | nil => simp
  | cons t ts ih => rw [List.foldl_cons, ih, List.flatMap_cons, List.append_assoc]

/-- The calls of `DrawData` are the calls of its tracks, in order, followed by
`CalcMotionMap`. -/
theorem MotionDetectorExample.DrawData_eq (self : MotionDetectorExample)
    (isRobust : Track → Int → ℚ → Size2f → Bool) (getTextSize : String → Size × Int)
    (frame : Mat) (m_tracks : List Track) :
    self.DrawData isRobust getTextSize frame m_tracks
      = m_tracks.flatMap (self.trackCalls isRobust getTextSize frame)
          ++ [DrawCmd.CalcMotionMap] := by
  have hbody : (fun (out : List DrawCmd) (track : Track) =>
      if track.m_isStatic then
        let out := out ++ [DrawCmd.DrawTrack 1 track false]
        let label := "abandoned " ++ toString track.m_ID
        let labelSize := (getTextSize label).1
        let baseLine := (getTextSize label).2
        let brect := clampBrect track.m_rrect.boundingRect labelSize frame.cols frame.rows
        let out := out ++
          [DrawCmd.DrawFilledRect (labelRect brect labelSize baseLine) ⟨255, 0, 255, 0⟩ 150]
        out ++ [DrawCmd.putText label (brect.x, brect.y) ⟨0, 0, 0, 0⟩]
      else if isRobust track (cvRound (self.m_fps / 4)) (7 / 10) ⟨1 / 10, 8⟩ then
        out ++ [DrawCmd.DrawTrack 1 track true]
      else
        out)
      = fun (out : List DrawCmd) (track : Track) =>
          out ++ self.trackCalls isRobust getTextSize frame track := by
    funext out track
    unfold MotionDetectorExample.trackCalls
    split_ifs <;> simp
  unfold MotionDetectorExample.DrawData
  simp only []
  rw [hbody, foldl_append_calls, List.nil_append]

/-- C12: for every list of tracks, `MotionDetectorExample::DrawData` renders each
track by at most one path. `DrawTrack` without trajectory is called for a track
exactly when the track is in the list with its static flag set, whatever `IsRobust`
returns, and such a track gets its `abandoned <ID>` label; `DrawTrack` with
trajectory is called exactly when the track is in the list with its static flag
clear and `IsRobust(round(fps / 4), 0.7, (0.1, 8.0))` is true; a label and its
background are drawn exactly for the static tracks of the list; no track gets both
calls of `DrawTrack`. -/
theorem DrawData_one_path (self : MotionDetectorExample)
    (isRobust : Track → Int → ℚ → Size2f → Bool) (getTextSize : String → Size × Int)
    (frame : Mat) (m_tracks : List Track) (track : Track) :
    (DrawCmd.DrawTrack 1 track false ∈ self.DrawData isRobust getTextSize frame m_tracks
        ↔ track ∈ m_tracks ∧ track.m_isStatic = true)
    ∧ (DrawCmd.DrawTrack 1 track true ∈ self.DrawData isRobust getTextSize frame m_tracks
        ↔ track ∈ m_tracks ∧ track.m_isStatic = false
            ∧ isRobust track (cvRound (self.m_fps / 4)) (7 / 10) ⟨1 / 10, 8⟩ = true)
    ∧ ¬ (DrawCmd.DrawTrack 1 track false ∈ self.DrawData isRobust getTextSize frame m_tracks
          ∧ DrawCmd.DrawTrack 1 track true
              ∈ self.DrawData isRobust getTextSize frame m_tracks)
    ∧ (∀ (text : String) (org : Int × Int) (color : Scalar),
        DrawCmd.putText text org color ∈ self.DrawData isRobust getTextSize frame m_tracks
          ↔ ∃ t ∈ m_tracks, t.m_isStatic = true ∧ text = "abandoned " ++ toString t.m_ID
              ∧ org = ((clampBrect t.m_rrect.boundingRect (getTextSize text).1
                          frame.cols frame.rows).x,
                       (clampBrect t.m_rrect.boundingRect (getTextSize text).1
                          frame.cols frame.rows).y)
              ∧ color = ⟨0, 0, 0, 0⟩)
    ∧ (∀ (rect : Rect) (cl : Scalar) (alpha : Int),
        DrawCmd.DrawFilledRect rect cl alpha
            ∈ self.DrawData isRobust getTextSize frame m_tracks
          ↔ ∃ t ∈ m_tracks, t.m_isStatic = true
              ∧ rect = labelRect
                  (clampBrect t.m_rrect.boundingRect
                    (getTextSize ("abandoned " ++ toString t.m_ID)).1 frame.cols frame.rows)
                  (getTextSize ("abandoned " ++ toString t.m_ID)).1
                  (getTextSize ("abandoned " ++ toString t.m_ID)).2
              ∧ cl = ⟨255, 0, 255, 0⟩ ∧ alpha = 150) := by
  have hfalse : DrawCmd.DrawTrack 1 track false
      ∈ self.DrawData isRobust getTextSize frame m_tracks
      ↔ track ∈ m_tracks ∧ track.m_isStatic = true := by
    rw [MotionDetectorExample.DrawData_eq]
    simp only [List.mem_append, List.mem_flatMap, List.mem_singleton]
    constructor
    · rintro (⟨t, ht, hmem⟩ | h)
      · unfold MotionDetectorExample.trackCalls at hmem
        split_ifs at hmem with h1 h2
        · simp at hmem
          obtain rfl := hmem
          exact ⟨ht, h1⟩
        · simp at hmem
        · simp at hmem
      · cases h
    · rintro ⟨ht, hs⟩
      refine Or.inl ⟨track, ht, ?_⟩
      unfold MotionDetectorExample.trackCalls
      rw [if_pos hs]
      simp
  have htrue : DrawCmd.DrawTrack 1 track true
      ∈ self.DrawData isRobust getTextSize frame m_tracks
      ↔ track ∈ m_tracks ∧ track.m_isStatic = false
          ∧ isRobust track (cvRound (self.m_fps / 4)) (7 / 10) ⟨1 / 10, 8⟩ = true := by
    rw [MotionDetectorExample.DrawData_eq]
    simp only [List.mem_append, List.mem_flatMap, List.mem_singleton]
    constructor
    · rintro (⟨t, ht, hmem⟩ | h)
      · unfold MotionDetectorExample.trackCalls at hmem
        split_ifs at hmem with h1 h2
        · simp at hmem
        · simp at hmem
          obtain rfl := hmem
          exact ⟨ht, by simpa using h1, h2⟩
        · simp at hmem
      · cases h
    · rintro ⟨ht, hs, hr⟩
      refine Or.inl ⟨track, ht, ?_⟩
      unfold MotionDetectorExample.trackCalls
      rw [if_neg (by simp [hs]), if_pos hr]
      simp
  refine ⟨hfalse, htrue, ?_, ?_, ?_⟩
  · rintro ⟨h1, h2⟩
    have a := (hfalse.1 h1).2
    have b := (htrue.1 h2).2.1
    rw [a] at b
    cases b
  · intro text org color
    rw [MotionDetectorExample.DrawData_eq]
    simp only [List.mem_append, List.mem_flatMap, List.mem_singleton]
    constructor
    · rintro (⟨t, ht, hmem⟩ | h)
      · unfold MotionDetectorExample.trackCalls at hmem
        split_ifs at hmem with h1 h2
        · simp at hmem
          obtain ⟨rfl, rfl, rfl⟩ := hmem
          exact ⟨t, ht, h1, rfl, rfl, rfl⟩
        · simp at hmem
        · simp at hmem
      · cases h
    · rintro ⟨t, ht, hs, rfl, rfl, rfl⟩
      refine Or.inl ⟨t, ht, ?_⟩
      unfold MotionDetectorExample.trackCalls
      rw [if_pos hs]
      simp
  · intro rect cl alpha
    rw [MotionDetectorExample.DrawData_eq]
    simp only [List.mem_append, List.mem_flatMap, List.mem_singleton]
    constructor
    · rintro (⟨t, ht, hmem⟩ | h)
      · unfold MotionDetectorExample.trackCalls at hmem
        split_ifs at hmem with h1 h2
        · simp at hmem
          obtain ⟨rfl, rfl, rfl⟩ := hmem
          exact ⟨t, ht, h1, rfl, rfl, rfl⟩
        · simp at hmem
        · simp at hmem
      · cases h
    · rintro ⟨t, ht, hs, rfl, rfl, rfl⟩
      refine Or.inl ⟨t, ht, ?_⟩
      unfold MotionDetectorExample.trackCalls
      rw [if_pos hs]
      simp

/-! ## The set-up of the detector -/

/-- A run of `InitDetector` with the usual shape (store the pointer, on success size
the detector and return `true`, else return `false`) reports the outcome. -/
theorem reports_of_branch {D : Type} (created : Option D) (size : Size) :
    InitDetectorResult.reports
      (if created.isSome then
        ({ ret := true, m_detector := created, SetMinObjectSize := [size] } :
          InitDetectorResult D)
       else { ret := false, m_detector := created, SetMinObjectSize := [] }) created := by
  unfold InitDetectorResult.reports
  cases created <;> simp

/-- The shape of `OpenCVDNNExample::InitDetector`, which returns the comparison of
the pointer with null, reports the outcome as well. -/
theorem reports_of_flag {D : Type} (created : Option D) (size : Size) :
    InitDetectorResult.reports
      ({ ret := created.isSome, m_detector := created,
         SetMinObjectSize := if created.isSome then [size] else [] } :
        InitDetectorResult D) created := by
  unfold InitDetectorResult.reports
  cases created <;> simp

/-- The configuration the motion example passes does not depend on `m_minObjWidth`. -/
theorem MotionDetectorExample.config_minObjWidth (self : MotionDetectorExample) (w : Int)
    (detectorType : Detectors) :
    MotionDetectorExample.config { self with m_minObjWidth := w } detectorType
      = self.config detectorType := rfl

/-- C13: for every example class, `InitDetector` returns `true` if and only if
`CreateDetector` returned a detector that is not null; when `CreateDetector` returns
null, `InitDetector` returns `false` and `SetMinObjectSize` is never called. -/
theorem InitDetector_reports {D : Type} (self : MotionDetectorExample) (pathToModel : String)
    (objtype : ObjectTypes → Nat) (CreateDetector : Detectors → config_t → UMat → Option D)
    (frame : UMat) :
    (self.InitDetector CreateDetector frame).2.reports
        (CreateDetector Detectors.Motion_VIBE (self.config Detectors.Motion_VIBE) frame)
    ∧ (FaceDetectorExample.InitDetector pathToModel CreateDetector frame).reports
        (CreateDetector Detectors.Face_HAAR (FaceDetectorExample.config pathToModel) frame)
    ∧ (PedestrianDetectorExample.InitDetector pathToModel CreateDetector frame).reports
        (CreateDetector Detectors.Pedestrian_C4
          (PedestrianDetectorExample.config pathToModel Detectors.Pedestrian_C4) frame)
    ∧ (OpenCVDNNExample.InitDetector pathToModel CreateDetector frame).reports
        (CreateDetector Detectors.DNN_OCV
          (OpenCVDNNExample.config pathToModel NNModels.MobileNetSSD) frame)
    ∧ (YoloDarknetExample.InitDetector pathToModel objtype CreateDetector frame).reports
        (CreateDetector Detectors.Yolo_Darknet
          (YoloDarknetExample.config pathToModel objtype YoloDarknetExample.YOLOModels.YOLOv4)
          frame)
    ∧ (YoloTensorRTExample.InitDetector pathToModel objtype CreateDetector frame).reports
        (CreateDetector Detectors.Yolo_TensorRT
          (YoloTensorRTExample.config pathToModel objtype
            YoloTensorRTExample.YOLOModels.YOLOv4) frame) := by
  refine ⟨?_, ?_, ?_, ?_, ?_, ?_⟩
  · unfold MotionDetectorExample.InitDetector
    simp only [MotionDetectorExample.config_minObjWidth]
    have h := reports_of_branch
      (CreateDetector Detectors.Motion_VIBE (self.config Detectors.Motion_VIBE) frame)
      ⟨Int.tdiv frame.cols 20, Int.tdiv frame.cols 20⟩
    split_ifs at h ⊢ <;> exact h
  · exact reports_of_branch _ _
  · exact reports_of_branch _ _
  · exact reports_of_flag _ _
  · exact reports_of_branch _ _
  · exact reports_of_branch _ _

/-- C14 (counterexample): on a reference frame of `640 x 480` pixels with a factory
that succeeds, the motion example passes the size `(32, 32)` to `SetMinObjectSize`,
not `(640 / 20, 480 / 20) = (32, 24)`. -/
theorem InitDetector_motion_size_counterexample :
    ((MotionDetectorExample.new 25).InitDetector
        (fun _ _ _ => some ()) ⟨640, 480⟩).2.ret = true
    ∧ ((MotionDetectorExample.new 25).InitDetector
        (fun _ _ _ => some ()) ⟨640, 480⟩).2.SetMinObjectSize = [⟨32, 32⟩]
    ∧ ((MotionDetectorExample.new 25).InitDetector
        (fun _ _ _ => some ()) ⟨640, 480⟩).2.SetMinObjectSize
        ≠ [⟨Int.tdiv 640 20, Int.tdiv 480 20⟩] := by
  refine ⟨rfl, rfl, ?_⟩
  decide

/-- C14 (amended): for every reference frame of size `cols x rows`, when detector
construction succeeds the size passed to `SetMinObjectSize` is, with integer
division, the square `(cols / 20, cols / 20)` for the motion example,
`(cols / 20, rows / 20)` for the face and pedestrian examples, and
`(cols / 40, rows / 40)` for the neural-network examples; when construction fails
there is no call. -/
theorem InitDetector_min_object_size {D : Type} (self : MotionDetectorExample)
    (pathToModel : String) (objtype : ObjectTypes → Nat)
    (CreateDetector : Detectors → config_t → UMat → Option D) (frame : UMat) :
    (self.InitDetector CreateDetector frame).2.SetMinObjectSize
        = (if (CreateDetector Detectors.Motion_VIBE (self.config Detectors.Motion_VIBE)
                frame).isSome
           then [⟨Int.tdiv frame.cols 20, Int.tdiv frame.cols 20⟩] else [])
    ∧ (FaceDetectorExample.InitDetector pathToModel CreateDetector frame).SetMinObjectSize
        = (if (CreateDetector Detectors.Face_HAAR (FaceDetectorExample.config pathToModel)
                frame).isSome
           then [⟨Int.tdiv frame.cols 20, Int.tdiv frame.rows 20⟩] else [])
    ∧ (PedestrianDetectorExample.InitDetector pathToModel CreateDetector
          frame).SetMinObjectSize
        = (if (CreateDetector Detectors.Pedestrian_C4
                (PedestrianDetectorExample.config pathToModel Detectors.Pedestrian_C4)
                frame).isSome
           then [⟨Int.tdiv frame.cols 20, Int.tdiv frame.rows 20⟩] else [])
    ∧ (OpenCVDNNExample.InitDetector pathToModel CreateDetector frame).SetMinObjectSize
        = (if (CreateDetector Detectors.DNN_OCV
                (OpenCVDNNExample.config pathToModel NNModels.MobileNetSSD) frame).isSome
           then [⟨Int.tdiv frame.cols 40, Int.tdiv frame.rows 40⟩] else [])
    ∧ (YoloDarknetExample.InitDetector pathToModel objtype CreateDetector
          frame).SetMinObjectSize
        = (if (CreateDetector Detectors.Yolo_Darknet
                (YoloDarknetExample.config pathToModel objtype
                  YoloDarknetExample.YOLOModels.YOLOv4) frame).isSome
           then [⟨Int.tdiv frame.cols 40, Int.tdiv frame.rows 40⟩] else [])
    ∧ (YoloTensorRTExample.InitDetector pathToModel objtype CreateDetector
          frame).SetMinObjectSize
        = (if (CreateDetector Detectors.Yolo_TensorRT
                (YoloTensorRTExample.config pathToModel objtype
                  YoloTensorRTExample.YOLOModels.YOLOv4) frame).isSome
           then [⟨Int.tdiv frame.cols 40, Int.tdiv frame.rows 40⟩] else []) := by
  refine ⟨?_, ?_, ?_, ?_, ?_, ?_⟩
  · unfold MotionDetectorExample.InitDetector
    simp only [MotionDetectorExample.config_minObjWidth]
    split_ifs <;> rfl
  · unfold FaceDetectorExample.InitDetector
    simp only []
    split_ifs <;> rfl
  · unfold PedestrianDetectorExample.InitDetector
    simp only []
    split_ifs <;> rfl
  · rfl
  · unfold YoloDarknetExample.InitDetector
    simp only []
    split_ifs <;> rfl
  · unfold YoloTensorRTExample.InitDetector
    simp only []
    split_ifs <;> rfl

/-! ## The robustness test -/

/-- The sample track has `10` trajectory points, raw ratio `4 / 5` and aspect
ratio `1`. -/
theorem sampleTrack_measures :
    sampleTrack.m_trace.length = 10 ∧ sampleTrack.rawPointRatio = 4 / 5
      ∧ sampleTrack.aspectRatio = 1 := by
  refine ⟨rfl, ?_, ?_⟩
  · have hc : sampleTrack.m_trace.count true = 8 := by decide
    have hl : sampleTrack.m_trace.length = 10 := rfl
    unfold Track.rawPointRatio
    rw [hc, hl]
    norm_num
  · unfold Track.aspectRatio sampleTrack
    norm_num

/-- The robustness test in terms of the measures of the track. -/
theorem IsRobust_iff (track : Track) (minTrajectorySize : Int) (minRawPointRatio : ℚ)
    (sizeRatio : Size2f) :
    IsRobust track minTrajectorySize minRawPointRatio sizeRatio = true
      ↔ minTrajectorySize ≤ (track.m_trace.length : Int)
          ∧ minRawPointRatio ≤ track.rawPointRatio
          ∧ sizeRatio.width ≤ track.aspectRatio ∧ track.aspectRatio ≤ sizeRatio.height := by
  unfold IsRobust
  exact decide_eq_true_iff

/-- The sample track passes the thresholds `(8, 0.7, [0.1, 8.0])`. -/
theorem sampleTrack_robust : IsRobust sampleTrack 8 (7 / 10) ⟨1 / 10, 8⟩ = true := by
  obtain ⟨hl, hr, ha⟩ := sampleTrack_measures
  rw [IsRobust_iff, hl, hr, ha]
  norm_num

/-- The sample track fails the thresholds `(8, 0.9, [0.1, 8.0])`. -/
theorem sampleTrack_not_robust : IsRobust sampleTrack 8 (9 / 10) ⟨1 / 10, 8⟩ = false := by
  obtain ⟨hl, hr, ha⟩ := sampleTrack_measures
  rw [Bool.eq_false_iff, Ne, IsRobust_iff, hl, hr, ha]
  norm_num

/-- C15: robustness monotonicity of `IsRobust`. For every track, every aspect range
and all thresholds with `minTrajectorySize1 ≤ minTrajectorySize2` and
`minRawPointRatio1 ≤ minRawPointRatio2`, a track that is robust for the larger
thresholds is robust for the smaller ones; a track of length `10`, raw ratio `0.8`
and aspect `1.0` is robust for `(8, 0.7, [0.1, 8.0])` and not robust for
`(8, 0.9, [0.1, 8.0])`. -/
theorem IsRobust_threshold_monotone (track : Track) (minTrajectorySize1 minTrajectorySize2 : Int)
    (minRawPointRatio1 minRawPointRatio2 : ℚ) (sizeRatio : Size2f)
    (hsize : minTrajectorySize1 ≤ minTrajectorySize2)
    (hratio : minRawPointRatio1 ≤ minRawPointRatio2)
    (h : IsRobust track minTrajectorySize2 minRawPointRatio2 sizeRatio = true) :
    IsRobust track minTrajectorySize1 minRawPointRatio1 sizeRatio = true
    ∧ (sampleTrack.m_trace.length = 10 ∧ sampleTrack.rawPointRatio = 4 / 5
        ∧ sampleTrack.aspectRatio = 1)
    ∧ IsRobust sampleTrack 8 (7 / 10) ⟨1 / 10, 8⟩ = true
    ∧ IsRobust sampleTrack 8 (9 / 10) ⟨1 / 10, 8⟩ = false := by
  refine ⟨?_, sampleTrack_measures, sampleTrack_robust, sampleTrack_not_robust⟩
  rw [IsRobust_iff] at h ⊢
  obtain ⟨h1, h2, h3, h4⟩ := h
  exact ⟨le_trans hsize h1, le_trans hratio h2, h3, h4⟩

/-- C15 (witness): the sample track, robust for `(8, 0.7)`, is robust for
`(3, 0.5)`. -/
theorem IsRobust_threshold_monotone_witness :
    (3 : Int) ≤ 8 ∧ (1 / 2 : ℚ) ≤ 7 / 10
    ∧ IsRobust sampleTrack 8 (7 / 10) ⟨1 / 10, 8⟩ = true
    ∧ IsRobust sampleTrack 3 (1 / 2) ⟨1 / 10, 8⟩ = true :=
  ⟨by decide, by norm_num, sampleTrack_robust,
   (IsRobust_threshold_monotone sampleTrack 3 8 (1 / 2) (7 / 10) ⟨1 / 10, 8⟩
      (by decide) (by norm_num) sampleTrack_robust).1⟩

/-! ## The blend as a floor quotient -/

/-- C16: for every `alpha` in `1..255`, every existing channel value `p` in `0..255`
and every fill colour channel `c` in `0..255`, the value `DrawFilledRect` writes is
exactly the integer quotient `floor(((255 - alpha) * p + alpha * c) / 255)`; it
already lies in `0..255`, so the saturating cast never changes it, and it differs
from the exact rational weighted average by less than `1`. -/
theorem DrawFilledRect_floor_quotient (frame : Mat) (rect : Rect) (cl : Scalar) (alpha : Int)
    (y x : Int) (i : Nat) (p c : Int) (h : ChannelAt frame rect cl y x i p c)
    (ha1 : 1 ≤ alpha) (ha : alpha ≤ 255) :
    (DrawFilledRect frame rect cl alpha).px y x i = ((255 - alpha) * p + alpha * c) / 255
    ∧ 0 ≤ (DrawFilledRect frame rect cl alpha).px y x i
    ∧ (DrawFilledRect frame rect cl alpha).px y x i ≤ 255
    ∧ saturate_cast_uchar (Int.tdiv ((255 - alpha) * p + alpha * c) 255)
        = Int.tdiv ((255 - alpha) * p + alpha * c) 255
    ∧ 0 ≤ (((255 - alpha) * p + alpha * c : Int) : ℚ) / 255
          - (((DrawFilledRect frame rect cl alpha).px y x i : Int) : ℚ)
    ∧ (((255 - alpha) * p + alpha * c : Int) : ℚ) / 255
          - (((DrawFilledRect frame rect cl alpha).px y x i : Int) : ℚ) < 1 := by
  obtain ⟨_, hcov, hi, hi3, hp, hp0, hp255, hc, hc0, hc255⟩ := h
  have hr : (DrawFilledRect frame rect cl alpha).px y x i
      = ((255 - alpha) * p + alpha * c) / 255 := by
    rw [DrawFilledRect_px_blend frame rect cl alpha (by omega) y x i hcov hi hi3, hp, hc]
    exact blendValue_eq_ediv alpha p c (by omega) ha hp0 hp255 hc0 hc255
  have hb := blendValue_eq_ediv alpha p c (by omega) ha hp0 hp255 hc0 hc255
  obtain ⟨h0, h1⟩ := weighted_sum_bounds alpha p c (by omega) ha hp0 hp255 hc0 hc255
  have hfl := floor_div255 ((255 - alpha) * p + alpha * c)
  have hle : (((⌊(((255 - alpha) * p + alpha * c : Int) : ℚ) / 255⌋ : Int)) : ℚ)
      ≤ (((255 - alpha) * p + alpha * c : Int) : ℚ) / 255 := Int.floor_le _
  have hlt : (((255 - alpha) * p + alpha * c : Int) : ℚ) / 255
      < (((⌊(((255 - alpha) * p + alpha * c : Int) : ℚ) / 255⌋ : Int)) : ℚ) + 1 :=
    Int.lt_floor_add_one _
  rw [hfl] at hle hlt
  have hcast : saturate_cast_uchar (Int.tdiv ((255 - alpha) * p + alpha * c) 255)
      = Int.tdiv ((255 - alpha) * p + alpha * c) 255 := by
    unfold blendValue at hb
    rw [hb, Int.tdiv_eq_ediv h0 (by decide)]
  rw [hr]
  refine ⟨rfl, ?_, ?_, hcast, ?_, ?_⟩
  · generalize (255 - alpha) * p + alpha * c = n at h0 h1
    omega
  · generalize (255 - alpha) * p + alpha * c = n at h0 h1
    omega
  · linarith
  · linarith

/-- C16 (witness): weight `150` over the value `100` with fill colour `200` gives
`floor(40500 / 255) = 158`. -/
theorem DrawFilledRect_floor_quotient_witness :
    ChannelAt (constFrame 4 4 100) ⟨1, 1, 2, 2⟩ ⟨200, 200, 200, 0⟩ 2 2 2 100 200
    ∧ (1 : Int) ≤ 150 ∧ (150 : Int) ≤ 255
    ∧ (DrawFilledRect (constFrame 4 4 100) ⟨1, 1, 2, 2⟩ ⟨200, 200, 200, 0⟩ 150).px 2 2 2
        = ((255 - 150) * 100 + 150 * 200) / 255 :=
  ⟨by decide, by decide, by decide,
   (DrawFilledRect_floor_quotient (constFrame 4 4 100) ⟨1, 1, 2, 2⟩ ⟨200, 200, 200, 0⟩ 150
      2 2 2 100 200 (by decide) (by decide) (by decide)).1⟩

end Examples
